import Mathlib

/-!
Shallow embedding of the nanoboyadvance GBA emulation core
(src/src/gba/memory.h, src/src/gba/video.cpp + video.h, src/src/core/cpu.cpp,
src/nanoboyadvance/src/core/arm7.cpp), together with proofs settling the
frozen claims about it.

Machine integers are modelled as Nat with explicit masking / modulus where
the C++ types truncate.  Byte-array memories (BIOS, WRAM, IRAM, PAL, VRAM,
OAM, ROM) are modelled as total functions Nat to Nat indexed exactly as the
C++ indexes its arrays; the u8-ness of stored values is an invariant of the
write paths, not of the representation.
-/

namespace NBA

/-- Pointwise update of a function-backed store, the shallow counterpart of
an array element assignment. -/
def updAt {α : Type} (f : Nat → α) (k : Nat) (x : α) : Nat → α :=
  fun i => if i = k then x else f i

@[simp] theorem updAt_same {α : Type} (f : Nat → α) (k : Nat) (x : α) :
    updAt f k x k = x := by
  simp [updAt]

@[simp] theorem updAt_other {α : Type} (f : Nat → α) (k : Nat) (x : α)
    (i : Nat) (h : i ≠ k) : updAt f k x i = f i := by
  simp [updAt, h]

/-! ## Video state (video.h / video.cpp) -/

/-- GBAVideoState from video.h. -/
inductive GBAVideoState where
  | Scanline
  | HBlank
  | VBlank
deriving DecidableEq, Repr

/-- Background struct from video.h.  The float-typed shadow fields
x_ref_int / y_ref_int (written through DecodeGBAFloat32, a float routine)
are not modelled: floating point is outside the embedding and no integer
path of the emulator reads them. -/
structure Background where
  enable      : Bool
  mosaic      : Bool
  true_color  : Bool
  wraparound  : Bool
  priority    : Nat
  size        : Nat
  tile_base   : Nat
  map_base    : Nat
  x           : Nat
  y           : Nat
  x_ref       : Nat
  y_ref       : Nat
  pa          : Nat
  pb          : Nat
  pc          : Nat
  pd          : Nat

/-- Window struct from video.h, with the bg_in array spread into four
fields. -/
structure Window where
  enable : Bool
  bg_in0 : Bool
  bg_in1 : Bool
  bg_in2 : Bool
  bg_in3 : Bool
  obj_in : Bool
  sfx_in : Bool
  left   : Nat
  right  : Nat
  top    : Nat
  bottom : Nat

/-- WindowOuter struct from video.h. -/
structure WindowOuter where
  bg0 : Bool
  bg1 : Bool
  bg2 : Bool
  bg3 : Bool
  obj : Bool
  sfx : Bool

/-- Object struct from video.h. -/
structure ObjInfo where
  enable          : Bool
  hblank_access   : Bool
  two_dimensional : Bool

/-- State of GBAVideo (video.h).  The render-output buffers (m_Buffer,
m_BgBuffer, m_ObjBuffer, m_BdBuffer) are scanline scratch / frame output
produced by Render() and are not read by any claim, so they are omitted. -/
structure Video where
  bg             : Nat → Background
  obj            : ObjInfo
  win            : Nat → Window
  winout         : WindowOuter
  objwin_enable  : Bool
  ticks          : Nat
  state          : GBAVideoState
  renderScanline : Bool
  pal            : Nat → Nat
  vram           : Nat → Nat
  oam            : Nat → Nat
  hblankDMA      : Bool
  vblankDMA      : Bool
  vcount         : Nat
  videoMode      : Nat
  frameSelect    : Bool
  forcedBlank    : Bool
  vcountFlag     : Bool
  vblankIRQ      : Bool
  hblankIRQ      : Bool
  vcountIRQ      : Bool
  vcountSetting  : Nat

/-- Interrupt bit constants from video.cpp. -/
def VBLANK_INTERRUPT : Nat := 1
/-- HBlank interrupt bit constant from video.cpp. -/
def HBLANK_INTERRUPT : Nat := 2
/-- VCount interrupt bit constant from video.cpp. -/
def VCOUNT_INTERRUPT : Nat := 4

/-- GBAVideo::Step from video.cpp, as a function of the video state and the
interrupt-flag register if_ (reached through the m_Interrupt pointer in the
source); it returns the new video state and the new if_ value.  The BG2/BG3
affine-reference latching on entry to VBlank assigns the float fields
x_ref_int / y_ref_int only (via DecodeGBAFloat32) and is therefore not
representable here; no integer state changes are dropped. -/
def videoStep (v : Video) (iflag : Nat) : Video × Nat :=
  let v := { v with ticks := v.ticks + 1,
                    renderScanline := false,
                    vcountFlag := v.vcount == v.vcountSetting }
  match v.state with
  | GBAVideoState.Scanline =>
      if 960 ≤ v.ticks then
        ({ v with hblankDMA := true,
                  state := GBAVideoState.HBlank,
                  renderScanline := true,
                  ticks := 0 },
         if v.hblankIRQ then iflag ||| HBLANK_INTERRUPT else iflag)
      else (v, iflag)
  | GBAVideoState.HBlank =>
      if 272 ≤ v.ticks then
        let vcount := (v.vcount + 1) % 65536
        let iflag := if v.vcountFlag && v.vcountIRQ
                     then iflag ||| VCOUNT_INTERRUPT else iflag
        if vcount = 160 then
          ({ v with vcount := vcount,
                    hblankDMA := false,
                    vblankDMA := true,
                    state := GBAVideoState.VBlank,
                    ticks := 0 },
           if v.vblankIRQ then iflag ||| VBLANK_INTERRUPT else iflag)
        else
          ({ v with vcount := vcount,
                    hblankDMA := false,
                    state := GBAVideoState.Scanline,
                    ticks := 0 }, iflag)
      else (v, iflag)
  | GBAVideoState.VBlank =>
      if 1232 ≤ v.ticks then
        let vcount := (v.vcount + 1) % 65536
        let iflag := if v.vcountFlag && v.vcountIRQ
                     then iflag ||| VCOUNT_INTERRUPT else iflag
        if vcount = 227 then
          ({ v with vcount := 0,
                    vblankDMA := false,
                    state := GBAVideoState.Scanline,
                    ticks := 0 }, iflag)
        else
          ({ v with vcount := vcount, ticks := 0 }, iflag)
      else (v, iflag)

/-- Default-initialised Background (the brace initialisers of video.h). -/
def background0 : Background :=
  { enable := false, mosaic := false, true_color := false,
    wraparound := false, priority := 0, size := 0, tile_base := 0,
    map_base := 0, x := 0, y := 0, x_ref := 0, y_ref := 0,
    pa := 0, pb := 0, pc := 0, pd := 0 }

/-- Default-initialised Window. -/
def window0 : Window :=
  { enable := false, bg_in0 := false, bg_in1 := false, bg_in2 := false,
    bg_in3 := false, obj_in := false, sfx_in := false,
    left := 0, right := 0, top := 0, bottom := 0 }

/-- Default-initialised video state, matching the member initialisers of
video.h and the constructor of video.cpp (all memories zeroed). -/
def video0 : Video :=
  { bg := fun _ => background0,
    obj := { enable := false, hblank_access := false,
             two_dimensional := false },
    win := fun _ => window0,
    winout := { bg0 := false, bg1 := false, bg2 := false, bg3 := false,
                obj := false, sfx := false },
    objwin_enable := false,
    ticks := 0,
    state := GBAVideoState.Scanline,
    renderScanline := false,
    pal := fun _ => 0,
    vram := fun _ => 0,
    oam := fun _ => 0,
    hblankDMA := false,
    vblankDMA := false,
    vcount := 0,
    videoMode := 0,
    frameSelect := false,
    forcedBlank := false,
    vcountFlag := false,
    vblankIRQ := false,
    hblankIRQ := false,
    vcountIRQ := false,
    vcountSetting := 0 }

/-- State-machine invariant tying the PPU substate to the scanline counter:
during Scanline/HBlank the counter is on a visible line, during VBlank it is
in 160..226. -/
def videoInv (v : Video) : Prop :=
  ((v.state = GBAVideoState.Scanline ∨ v.state = GBAVideoState.HBlank) →
      v.vcount ≤ 159) ∧
  (v.state = GBAVideoState.VBlank → 160 ≤ v.vcount ∧ v.vcount ≤ 226)

instance (v : Video) : Decidable (videoInv v) := by
  unfold videoInv; infer_instance

/-- Concrete PPU state on the last VBlank line, one tick before the
line rollover: VBlank, VCOUNT = 226, sub-tick counter 1231. -/
def videoC2 : Video :=
  { video0 with state := GBAVideoState.VBlank, vcount := 226, ticks := 1231 }

/-- C2 counterexample: from the (invariant-satisfying) state on VBlank line
226 one call to Step takes VCOUNT directly to 0 and the state to Scanline,
so the value 227 claimed to appear in the observable VCOUNT sequence
0,1,...,227,0,... is never observable between Step calls: the source writes
227 and immediately overwrites it with 0 inside the same Step. -/
theorem C2_counterexample :
    videoInv videoC2 ∧
    videoC2.vcount = 226 ∧
    (videoStep videoC2 0).1.vcount = 0 ∧
    (videoStep videoC2 0).1.state = GBAVideoState.Scanline :=
  ⟨by decide, rfl, rfl, rfl⟩

/-- C2 (amended): stepping the PPU indefinitely, the sequence of VCOUNT
values observable between Step calls is 0,1,...,226,0,... — each Step
either leaves VCOUNT unchanged or advances it by one modulo 227 (the
transient value 227 is reset to 0 within the same Step) — and the PPU is in
the VBlank state exactly when 160 ≤ VCOUNT ≤ 226.  Stated as: the reset
state satisfies the state/VCOUNT invariant, the invariant is preserved by
videoStep, VCOUNT advances by at most one modulo 227 per step, and after
every step from an invariant state the VBlank-iff-160..226 equivalence
holds. -/
theorem C2_vcount_cycle :
    videoInv video0 ∧
    ∀ v i, videoInv v →
      (videoInv (videoStep v i).1 ∧
       ((videoStep v i).1.vcount = v.vcount ∨
        (videoStep v i).1.vcount = (v.vcount + 1) % 227) ∧
       ((videoStep v i).1.state = GBAVideoState.VBlank ↔
        160 ≤ (videoStep v i).1.vcount ∧ (videoStep v i).1.vcount ≤ 226)) := by
  constructor
  · decide
  · intro v i h
    obtain ⟨h1, h2⟩ := h
    unfold videoStep
    cases hst : v.state <;> simp only [hst] <;> dsimp only
    · split
      · refine ⟨⟨?_, ?_⟩, ?_, ?_⟩ <;> simp_all [videoInv] <;> omega
      · refine ⟨⟨?_, ?_⟩, ?_, ?_⟩ <;> simp_all [videoInv] <;> omega
    · split
      · split
        · refine ⟨⟨?_, ?_⟩, ?_, ?_⟩ <;> simp_all [videoInv] <;> omega
        · refine ⟨⟨?_, ?_⟩, ?_, ?_⟩ <;> simp_all [videoInv] <;> omega
      · refine ⟨⟨?_, ?_⟩, ?_, ?_⟩ <;> simp_all [videoInv] <;> omega
    · split
      · split
        · refine ⟨⟨?_, ?_⟩, ?_, ?_⟩ <;> simp_all [videoInv] <;> omega
        · refine ⟨⟨?_, ?_⟩, ?_, ?_⟩ <;> simp_all [videoInv] <;> omega
      · refine ⟨⟨?_, ?_⟩, ?_, ?_⟩ <;> simp_all [videoInv] <;> omega

/-- Witness for C2: the amended theorem applied at the reset video state
with interrupt flags 0, its invariant hypothesis discharged by decide. -/
theorem C2_vcount_cycle_witness :
    videoInv (videoStep video0 0).1 ∧
    ((videoStep video0 0).1.vcount = video0.vcount ∨
     (videoStep video0 0).1.vcount = (video0.vcount + 1) % 227) :=
  ⟨(C2_vcount_cycle.2 video0 0 (by decide)).1,
   (C2_vcount_cycle.2 video0 0 (by decide)).2.1⟩

/-! ## Memory / IO state (memory.h) -/

/-- DMA channel struct from memory.h.  The enum-typed fields
(AddressControl, StartTime, TransferSize) are kept as the small integers the
source casts them from and to. -/
structure DMAChan where
  dest           : Nat
  source         : Nat
  count          : Nat
  dest_int       : Nat
  source_int     : Nat
  count_int      : Nat
  dest_control   : Nat
  source_control : Nat
  start_time     : Nat
  size           : Nat
  repeat_        : Bool
  gamepack_drq   : Bool
  interrupt      : Bool
  enable         : Bool

/-- Timer struct from memory.h.  The overflow member is declared in the
header struct; the RunTimer implementation modelled here threads a local
overflow flag instead and never touches the member. -/
structure TimerChan where
  count     : Nat
  reload    : Nat
  clock     : Nat
  ticks     : Nat
  enable    : Bool
  countup   : Bool
  interrupt : Bool
  overflow  : Bool
deriving DecidableEq, Repr

/-- Waitstate struct from memory.h, with the first[3]/second[3] arrays
spread into numbered fields. -/
structure Waitstate where
  sram     : Nat
  first0   : Nat
  first1   : Nat
  first2   : Nat
  second0  : Nat
  second1  : Nat
  second2  : Nat
  prefetch : Bool

/-- GBAInterrupt (interrupt.h): the three interrupt-control registers. -/
structure Interrupt where
  ie  : Nat
  if_ : Nat
  ime : Nat

/-- HaltState enum from memory.h. -/
inductive HaltState where
  | NONE
  | STOP
  | HALT
deriving DecidableEq, Repr

/-- SaveType enum from memory.h. -/
inductive SaveType where
  | NONE
  | EEPROM
  | SRAM
  | FLASH64
  | FLASH128
deriving DecidableEq, Repr

/-- AccessSize enum from memory.h. -/
inductive AccessSize where
  | byte
  | hword
  | word
deriving DecidableEq, Repr

/-- State of GBAMemory (memory.h).  The backup object (m_Backup) is an
external collaborator (SRAM/Flash persistence, out of scope per the spec);
its reads/writes are modelled as 0 / no-op, matching the source when no
backup is attached.  The scheduler scratch members m_DidTransfer,
m_DMACycles, m_IntrWait, m_IntrWaitMask and the audio object are not read
by any claim and are omitted. -/
structure GBAMemory where
  rom       : Nat → Nat
  romSize   : Nat
  bios      : Nat → Nat
  wram      : Nat → Nat
  iram      : Nat → Nat
  saveType  : SaveType
  dma       : Nat → DMAChan
  timer     : Nat → TimerChan
  waitstate : Waitstate
  soundbias : Nat
  interrupt : Interrupt
  haltState : HaltState
  video     : Video
  keyinput  : Nat

/-- DMA count masks from memory.h (dma_count_mask). -/
def dma_count_mask : List Nat := [0x3FFF, 0x3FFF, 0x3FFF, 0xFFFF]
/-- DMA destination masks from memory.h (dma_dest_mask). -/
def dma_dest_mask : List Nat := [0x7FFFFFF, 0x7FFFFFF, 0x7FFFFFF, 0xFFFFFFF]
/-- DMA source masks from memory.h (dma_source_mask). -/
def dma_source_mask : List Nat := [0x7FFFFFF, 0xFFFFFFF, 0xFFFFFFF, 0xFFFFFFF]
/-- Timer prescaler cycle table from memory.h (tmr_cycles). -/
def tmr_cycles : List Nat := [1, 64, 256, 1024]

/-- ROM non-sequential waitstate table from memory.h (wsn_table). -/
def wsn_table : List Nat := [4, 3, 2, 8]
/-- WS0 sequential waitstate table from memory.h (wss0_table). -/
def wss0_table : List Nat := [2, 1]
/-- WS1 sequential waitstate table from memory.h (wss1_table). -/
def wss1_table : List Nat := [4, 1]
/-- WS2 sequential waitstate table from memory.h (wss2_table). -/
def wss2_table : List Nat := [8, 1]

/-- HLE BIOS stub bytes from memory.h (hle_bios), loaded at address 0 when
no BIOS image is supplied. -/
def hle_bios : List Nat :=
  [0x06, 0x00, 0x00, 0xEA, 0x00, 0x00, 0xA0, 0xE1,
   0x00, 0x00, 0xA0, 0xE1, 0x00, 0x00, 0xA0, 0xE1,
   0x00, 0x00, 0xA0, 0xE1, 0x00, 0x00, 0xA0, 0xE1,
   0x01, 0x00, 0x00, 0xEA, 0x00, 0x00, 0xA0, 0xE1,
   0x02, 0xF3, 0xA0, 0xE3, 0x0F, 0x50, 0x2D, 0xE9,
   0x01, 0x03, 0xA0, 0xE3, 0x00, 0xE0, 0x8F, 0xE2,
   0x04, 0xF0, 0x10, 0xE5, 0x0F, 0x50, 0xBD, 0xE8,
   0x04, 0xF0, 0x5E, 0xE2, 0x00, 0x00, 0xA0, 0xE1]

/-- VRAM mirror fold from memory.h: offsets are taken modulo 0x20000 and
the range 0x18000..0x1FFFF folds down by 0x8000. -/
def vramFold (i : Nat) : Nat :=
  let i := i % 0x20000
  if 0x18000 ≤ i then i - 0x8000 else i

/-- GBAMemory::SequentialAccess from memory.h. -/
def sequentialAccess (m : GBAMemory) (offset : Nat) (size : AccessSize) :
    Nat :=
  let page := offset >>> 24
  if page = 2 then
    if size = AccessSize.word then 6 else 3
  else if page = 5 ∨ page = 6 then
    if size = AccessSize.word then 2 else 1
  else if page = 8 then
    if size = AccessSize.word then
      1 + 2 * wsn_table.getD m.waitstate.first0 0
    else
      1 + wsn_table.getD m.waitstate.first0 0
  else if page = 0xE then
    if size = AccessSize.word ∧ m.saveType ≠ SaveType.SRAM then 8 else 5
  else 1

/-- GBAMemory::NonSequentialAccess from memory.h. -/
def nonSequentialAccess (m : GBAMemory) (offset : Nat) (size : AccessSize) :
    Nat :=
  let page := offset >>> 24
  if page = 8 then
    if size = AccessSize.word then
      1 + wss0_table.getD m.waitstate.second0 0 +
        wsn_table.getD m.waitstate.first0 0
    else
      1 + wss0_table.getD m.waitstate.second0 0
  else sequentialAccess m offset size

/-- IO-register byte read: the page-4 switch of GBAMemory::ReadByte
(memory.h).  Register offsets follow the spec table in section 6 (iodef.h
is not among the sources).  The io argument is the internal offset after
the 0x040n0800 mirror collapse.  Unmatched offsets return 0. -/
def ioReadByte (m : GBAMemory) (io : Nat) : Nat :=
  if io = 0x000 then          -- DISPCNT
    m.video.videoMode |||
    (if m.video.frameSelect then 16 else 0) |||
    (if m.video.obj.hblank_access then 32 else 0) |||
    (if m.video.obj.two_dimensional then 64 else 0) |||
    (if m.video.forcedBlank then 128 else 0)
  else if io = 0x001 then     -- DISPCNT+1
    (if (m.video.bg 0).enable then 1 else 0) |||
    (if (m.video.bg 1).enable then 2 else 0) |||
    (if (m.video.bg 2).enable then 4 else 0) |||
    (if (m.video.bg 3).enable then 8 else 0) |||
    (if m.video.obj.enable then 16 else 0) |||
    (if (m.video.win 0).enable then 32 else 0) |||
    (if (m.video.win 1).enable then 64 else 0) |||
    (if m.video.objwin_enable then 128 else 0)
  else if io = 0x004 then     -- DISPSTAT
    (if m.video.state = GBAVideoState.VBlank then 1 else 0) |||
    (if m.video.state = GBAVideoState.HBlank then 2 else 0) |||
    (if m.video.vcountFlag then 4 else 0) |||
    (if m.video.vblankIRQ then 8 else 0) |||
    (if m.video.hblankIRQ then 16 else 0) |||
    (if m.video.vcountIRQ then 32 else 0)
  else if io = 0x006 then     -- VCOUNT (u8 return truncates the u16 field)
    m.video.vcount &&& 0xFF
  else if 0x008 ≤ io ∧ io ≤ 0x00F ∧ io % 2 = 0 then  -- BG0..3 CNT
    let n := (io - 0x008) / 2
    (m.video.bg n).priority |||
    (((m.video.bg n).tile_base / 0x4000) <<< 2) |||
    (if (m.video.bg n).mosaic then 64 else 0) |||
    (if (m.video.bg n).true_color then 128 else 0) |||
    (3 <<< 4)
  else if 0x008 ≤ io ∧ io ≤ 0x00F ∧ io % 2 = 1 then  -- BG0..3 CNT+1
    let n := (io - 0x009) / 2
    ((m.video.bg n).map_base / 0x800) |||
    (if (m.video.bg n).wraparound then 32 else 0) |||
    ((m.video.bg n).size <<< 6)
  else if io = 0x048 then     -- WININ
    (if (m.video.win 0).bg_in0 then 1 else 0) |||
    (if (m.video.win 0).bg_in1 then 2 else 0) |||
    (if (m.video.win 0).bg_in2 then 4 else 0) |||
    (if (m.video.win 0).bg_in3 then 8 else 0) |||
    (if (m.video.win 0).obj_in then 16 else 0) |||
    (if (m.video.win 0).sfx_in then 32 else 0)
  else if io = 0x049 then     -- WININ+1
    (if (m.video.win 1).bg_in0 then 1 else 0) |||
    (if (m.video.win 1).bg_in1 then 2 else 0) |||
    (if (m.video.win 1).bg_in2 then 4 else 0) |||
    (if (m.video.win 1).bg_in3 then 8 else 0) |||
    (if (m.video.win 1).obj_in then 16 else 0) |||
    (if (m.video.win 1).sfx_in then 32 else 0)
  else if io = 0x04A then     -- WINOUT
    (if m.video.winout.bg0 then 1 else 0) |||
    (if m.video.winout.bg1 then 2 else 0) |||
    (if m.video.winout.bg2 then 4 else 0) |||
    (if m.video.winout.bg3 then 8 else 0) |||
    (if m.video.winout.obj then 16 else 0) |||
    (if m.video.winout.sfx then 32 else 0)
  else if io = 0x04B then 0   -- WINOUT+1 (OBJWIN unimplemented)
  else if io = 0x100 then (m.timer 0).count &&& 0xFF    -- TM0CNT_L
  else if io = 0x101 then (m.timer 0).count >>> 8
  else if io = 0x104 then (m.timer 1).count &&& 0xFF    -- TM1CNT_L
  else if io = 0x105 then (m.timer 1).count >>> 8
  else if io = 0x108 then (m.timer 2).count &&& 0xFF    -- TM2CNT_L
  else if io = 0x109 then (m.timer 2).count >>> 8
  else if io = 0x10C then (m.timer 3).count &&& 0xFF    -- TM3CNT_L
  else if io = 0x10D then (m.timer 3).count >>> 8
  else if io = 0x102 ∨ io = 0x106 ∨ io = 0x10A ∨ io = 0x10E then
    let n := (io - 0x102) / 4                           -- TM0..3 CNT_H
    (m.timer n).clock |||
    (if (m.timer n).countup then 4 else 0) |||
    (if (m.timer n).interrupt then 64 else 0) |||
    (if (m.timer n).enable then 128 else 0)
  else if io = 0x130 then m.keyinput &&& 0xFF           -- KEYINPUT
  else if io = 0x131 then m.keyinput >>> 8
  else if io = 0x200 then m.interrupt.ie &&& 0xFF       -- IE
  else if io = 0x201 then m.interrupt.ie >>> 8
  else if io = 0x202 then m.interrupt.if_ &&& 0xFF      -- IF
  else if io = 0x203 then m.interrupt.if_ >>> 8
  else if io = 0x204 then                               -- WAITCNT
    m.waitstate.sram |||
    (m.waitstate.first0 <<< 2) |||
    (m.waitstate.second0 <<< 4) |||
    (m.waitstate.first1 <<< 5) |||
    (m.waitstate.second1 <<< 7)
  else if io = 0x205 then                               -- WAITCNT+1
    m.waitstate.first2 |||
    (m.waitstate.second2 <<< 2) |||
    (if m.waitstate.prefetch then 64 else 0) |||
    (1 <<< 7)
  else if io = 0x208 then m.interrupt.ime &&& 0xFF      -- IME
  else if io = 0x209 then m.interrupt.ime >>> 8
  else 0

/-- GBAMemory::ReadByte from memory.h.  BIOS reads (pages 0 and 1) are
range-checked only; ROM reads past the image return 0; page 0xE backup
reads are the out-of-scope backup collaborator (0 here, as when no backup
is attached); everything unmatched reads 0. -/
def readByte (m : GBAMemory) (offset : Nat) : Nat :=
  let page := offset >>> 24
  let internal := offset &&& 0xFFFFFF
  match page with
  | 0 => if 0x4000 ≤ internal then 0 else m.bios internal
  | 1 => if 0x4000 ≤ internal then 0 else m.bios internal
  | 2 => m.wram (internal % 0x40000)
  | 3 => m.iram (internal % 0x8000)
  | 4 => ioReadByte m
      (if internal &&& 0xFFFF = 0x800 then internal &&& 0xFFFF else internal)
  | 5 => m.video.pal (internal % 0x400)
  | 6 => m.video.vram (vramFold internal)
  | 7 => m.video.oam (internal % 0x400)
  | 8 => if m.romSize ≤ internal then 0 else m.rom internal
  | 9 =>
      if m.romSize ≤ internal + 0x1000000 then 0
      else m.rom (internal + 0x1000000)
  | 14 => 0
  | _ => 0

/-- GBAMemory::ReadHWord from memory.h: two byte reads with no address
alignment; the offset+1 is u32 arithmetic. -/
def readHWord (m : GBAMemory) (offset : Nat) : Nat :=
  readByte m offset |||
  (readByte m ((offset + 1) &&& 0xFFFFFFFF) <<< 8)

/-- GBAMemory::ReadWord from memory.h: four byte reads with no address
alignment. -/
def readWord (m : GBAMemory) (offset : Nat) : Nat :=
  readByte m offset |||
  (readByte m ((offset + 1) &&& 0xFFFFFFFF) <<< 8) |||
  (readByte m ((offset + 2) &&& 0xFFFFFFFF) <<< 16) |||
  (readByte m ((offset + 3) &&& 0xFFFFFFFF) <<< 24)

/-- Per-channel body of the DMAnSAD byte cases of GBAMemory::WriteByte:
byte n of the programmed source address is replaced (32-bit operations on
the u32 member). -/
def dmaSrcByte (m : GBAMemory) (c n v : Nat) : GBAMemory :=
  let d := m.dma c
  { m with dma := updAt m.dma c ({ d with source := (d.source &&& (0xFFFFFFFF ^^^ (0xFF <<< n))) ||| (v <<< n) }) }

/-- Per-channel body of the DMAnDAD byte cases of GBAMemory::WriteByte. -/
def dmaDstByte (m : GBAMemory) (c n v : Nat) : GBAMemory :=
  let d := m.dma c
  { m with dma := updAt m.dma c ({ d with dest := (d.dest &&& (0xFFFFFFFF ^^^ (0xFF <<< n))) ||| (v <<< n) }) }

/-- Per-channel body of the DMAnCNT_H (low byte) cases of
GBAMemory::WriteByte: bit 2 of the source control lands in the next byte,
so only the low bit is taken from here. -/
def dmaCntHiLoByte (m : GBAMemory) (c v : Nat) : GBAMemory :=
  let d := m.dma c
  { m with dma := updAt m.dma c ({ d with source_control := (d.source_control &&& 2) ||| ((v >>> 7) &&& 1), dest_control := (v >>> 5) &&& 3 }) }

/-- Per-channel body of the DMAnCNT_H+1 cases of GBAMemory::WriteByte:
decodes the control bits and, whenever the written enable bit is set,
latches the internal source/dest/count shadows from the programmed values
under the per-channel masks, with a masked count of 0 read as mask+1. -/
def dmaCntHiHiByte (m : GBAMemory) (c v : Nat) : GBAMemory :=
  let d := m.dma c
  let d := { d with
      source_control :=
        (d.source_control &&& (0xFFFFFFFF ^^^ 3)) ||| ((v &&& 1) <<< 1),
      repeat_ := v &&& 2 != 0,
      size := (v >>> 2) &&& 1,
      gamepack_drq := v &&& 8 != 0,
      start_time := (v >>> 4) &&& 3,
      interrupt := v &&& 64 != 0,
      enable := v &&& 128 != 0 }
  let d :=
    if d.enable then
      let count_int := d.count &&& dma_count_mask.getD c 0
      { d with
          source_int := d.source &&& dma_source_mask.getD c 0,
          dest_int := d.dest &&& dma_dest_mask.getD c 0,
          count_int :=
            if count_int = 0 then dma_count_mask.getD c 0 + 1
            else count_int }
    else d
  { m with dma := updAt m.dma c d }

/-- Per-channel body of the DMAnCNT_L byte cases of GBAMemory::WriteByte
(lo = true for the low count byte). -/
def dmaCntLoByte (m : GBAMemory) (c v : Nat) (lo : Bool) : GBAMemory :=
  let d := m.dma c
  { m with dma := updAt m.dma c ({ d with count := if lo then (d.count &&& 0xFF00) ||| v else (d.count &&& 0x00FF) ||| (v <<< 8) }) }

/-- Per-timer body of the TMnCNT_L byte cases of GBAMemory::WriteByte:
only the reload register is written, never the count. -/
def timerReloadByte (m : GBAMemory) (c v : Nat) (lo : Bool) : GBAMemory :=
  let t := m.timer c
  { m with timer := updAt m.timer c ({ t with reload := if lo then (t.reload &&& 0xFF00) ||| v else (t.reload &&& 0x00FF) ||| (v <<< 8) }) }

/-- IO-register byte write: the page-4 switch of GBAMemory::WriteByte
(memory.h).  Register offsets follow the spec table in section 6 (iodef.h
is not among the sources).  The io argument is the internal offset after
the bounds check and mirror collapse; v is the u8 value (already masked to
8 bits by writeByte).  The float-typed affine shadows x_ref_int/y_ref_int
written via DecodeGBAFloat32 in the BG2X/BG2Y/BG3X/BG3Y cases are not
modelled (floating point); the raw x_ref/y_ref registers are. -/
def ioWriteByte (m : GBAMemory) (io v : Nat) : GBAMemory :=
  if io = 0x000 then          -- DISPCNT
    { m with video := { m.video with
        videoMode := v &&& 7,
        frameSelect := v &&& 16 != 0,
        obj := { m.video.obj with
            hblank_access := v &&& 32 != 0,
            two_dimensional := v &&& 64 != 0 },
        forcedBlank := v &&& 128 != 0 } }
  else if io = 0x001 then     -- DISPCNT+1
    { m with video := { m.video with
        bg := updAt (updAt (updAt (updAt m.video.bg 0 { m.video.bg 0 with enable := v &&& 1 != 0 }) 1 { m.video.bg 1 with enable := v &&& 2 != 0 }) 2 { m.video.bg 2 with enable := v &&& 4 != 0 }) 3 ({ m.video.bg 3 with enable := v &&& 8 != 0 }),
        obj := { m.video.obj with enable := v &&& 16 != 0 },
        win := updAt (updAt m.video.win 0 { m.video.win 0 with enable := v &&& 32 != 0 }) 1 ({ m.video.win 1 with enable := v &&& 64 != 0 }),
        objwin_enable := v &&& 128 != 0 } }
  else if io = 0x004 then     -- DISPSTAT
    { m with video := { m.video with
        vblankIRQ := v &&& 8 != 0,
        hblankIRQ := v &&& 16 != 0,
        vcountIRQ := v &&& 32 != 0 } }
  else if io = 0x005 then     -- DISPSTAT+1
    { m with video := { m.video with vcountSetting := v } }
  else if 0x008 ≤ io ∧ io ≤ 0x00F ∧ io % 2 = 0 then  -- BG0..3 CNT
    let n := (io - 0x008) / 2
    { m with video := { m.video with bg := updAt m.video.bg n ({ m.video.bg n with priority := v &&& 3, tile_base := ((v >>> 2) &&& 3) * 0x4000, mosaic := v &&& 64 != 0, true_color := v &&& 128 != 0 }) } }
  else if 0x008 ≤ io ∧ io ≤ 0x00F ∧ io % 2 = 1 then  -- BG0..3 CNT+1
    let n := (io - 0x009) / 2
    { m with video := { m.video with bg := updAt m.video.bg n ({ m.video.bg n with map_base := (v &&& 31) * 0x800, wraparound := if n = 2 ∨ n = 3 then v &&& 32 != 0 else (m.video.bg n).wraparound, size := v >>> 6 }) } }
  else if io = 0x10 ∨ io = 0x14 ∨ io = 0x18 ∨ io = 0x1C then
    let n := (io - 0x10) / 4                           -- BG0..3 HOFS
    { m with video := { m.video with bg := updAt m.video.bg n ({ m.video.bg n with x := ((m.video.bg n).x &&& 0x100) ||| v }) } }
  else if io = 0x11 ∨ io = 0x15 ∨ io = 0x19 ∨ io = 0x1D then
    let n := (io - 0x11) / 4                           -- BG0..3 HOFS+1
    { m with video := { m.video with bg := updAt m.video.bg n ({ m.video.bg n with x := ((m.video.bg n).x &&& 0xFF) ||| ((v &&& 1) <<< 8) }) } }
  else if io = 0x12 ∨ io = 0x16 ∨ io = 0x1A ∨ io = 0x1E then
    let n := (io - 0x12) / 4                           -- BG0..3 VOFS
    { m with video := { m.video with bg := updAt m.video.bg n ({ m.video.bg n with y := ((m.video.bg n).y &&& 0x100) ||| v }) } }
  else if io = 0x13 ∨ io = 0x17 ∨ io = 0x1B ∨ io = 0x1F then
    let n := (io - 0x13) / 4                           -- BG0..3 VOFS+1
    { m with video := { m.video with bg := updAt m.video.bg n ({ m.video.bg n with y := ((m.video.bg n).y &&& 0xFF) ||| ((v &&& 1) <<< 8) }) } }
  else if 0x28 ≤ io ∧ io ≤ 0x2B then                   -- BG2X
    let n := (io - 0x28) * 8
    { m with video := { m.video with bg := updAt m.video.bg 2 ({ m.video.bg 2 with x_ref := ((m.video.bg 2).x_ref &&& (0xFFFFFFFF ^^^ (0xFF <<< n))) ||| (v <<< n) }) } }
  else if 0x38 ≤ io ∧ io ≤ 0x3B then                   -- BG3X
    let n := (io - 0x38) * 8
    { m with video := { m.video with bg := updAt m.video.bg 3 ({ m.video.bg 3 with x_ref := ((m.video.bg 3).x_ref &&& (0xFFFFFFFF ^^^ (0xFF <<< n))) ||| (v <<< n) }) } }
  else if 0x2C ≤ io ∧ io ≤ 0x2F then                   -- BG2Y
    let n := (io - 0x2C) * 8
    { m with video := { m.video with bg := updAt m.video.bg 2 ({ m.video.bg 2 with y_ref := ((m.video.bg 2).y_ref &&& (0xFFFFFFFF ^^^ (0xFF <<< n))) ||| (v <<< n) }) } }
  else if 0x3C ≤ io ∧ io ≤ 0x3F then                   -- BG3Y
    let n := (io - 0x3C) * 8
    { m with video := { m.video with bg := updAt m.video.bg 3 ({ m.video.bg 3 with y_ref := ((m.video.bg 3).y_ref &&& (0xFFFFFFFF ^^^ (0xFF <<< n))) ||| (v <<< n) }) } }
  else if io = 0x20 ∨ io = 0x21 then                   -- BG2PA
    let n := (io - 0x20) * 8
    { m with video := { m.video with bg := updAt m.video.bg 2 ({ m.video.bg 2 with pa := (((m.video.bg 2).pa &&& (0xFFFFFFFF ^^^ (0xFF <<< n))) ||| (v <<< n)) &&& 0xFFFF }) } }
  else if io = 0x30 ∨ io = 0x31 then                   -- BG3PA
    let n := (io - 0x30) * 8
    { m with video := { m.video with bg := updAt m.video.bg 3 ({ m.video.bg 3 with pa := (((m.video.bg 3).pa &&& (0xFFFFFFFF ^^^ (0xFF <<< n))) ||| (v <<< n)) &&& 0xFFFF }) } }
  else if io = 0x22 ∨ io = 0x23 then                   -- BG2PB
    let n := (io - 0x22) * 8
    { m with video := { m.video with bg := updAt m.video.bg 2 ({ m.video.bg 2 with pb := (((m.video.bg 2).pb &&& (0xFFFFFFFF ^^^ (0xFF <<< n))) ||| (v <<< n)) &&& 0xFFFF }) } }
  else if io = 0x32 ∨ io = 0x33 then                   -- BG3PB
    let n := (io - 0x32) * 8
    { m with video := { m.video with bg := updAt m.video.bg 3 ({ m.video.bg 3 with pb := (((m.video.bg 3).pb &&& (0xFFFFFFFF ^^^ (0xFF <<< n))) ||| (v <<< n)) &&& 0xFFFF }) } }
  else if io = 0x24 ∨ io = 0x25 then                   -- BG2PC
    let n := (io - 0x24) * 8
    { m with video := { m.video with bg := updAt m.video.bg 2 ({ m.video.bg 2 with pc := (((m.video.bg 2).pc &&& (0xFFFFFFFF ^^^ (0xFF <<< n))) ||| (v <<< n)) &&& 0xFFFF }) } }
  else if io = 0x34 ∨ io = 0x35 then                   -- BG3PC
    let n := (io - 0x34) * 8
    { m with video := { m.video with bg := updAt m.video.bg 3 ({ m.video.bg 3 with pc := (((m.video.bg 3).pc &&& (0xFFFFFFFF ^^^ (0xFF <<< n))) ||| (v <<< n)) &&& 0xFFFF }) } }
  else if io = 0x26 ∨ io = 0x27 then                   -- BG2PD
    let n := (io - 0x26) * 8
    { m with video := { m.video with bg := updAt m.video.bg 2 ({ m.video.bg 2 with pd := (((m.video.bg 2).pd &&& (0xFFFFFFFF ^^^ (0xFF <<< n))) ||| (v <<< n)) &&& 0xFFFF }) } }
  else if io = 0x36 ∨ io = 0x37 then                   -- BG3PD
    let n := (io - 0x36) * 8
    { m with video := { m.video with bg := updAt m.video.bg 3 ({ m.video.bg 3 with pd := (((m.video.bg 3).pd &&& (0xFFFFFFFF ^^^ (0xFF <<< n))) ||| (v <<< n)) &&& 0xFFFF }) } }
  else if io = 0x40 then      -- WIN0H
    { m with video := { m.video with win := updAt m.video.win 0 ({ m.video.win 0 with right := v }) } }
  else if io = 0x41 then
    { m with video := { m.video with win := updAt m.video.win 0 ({ m.video.win 0 with left := v }) } }
  else if io = 0x42 then      -- WIN1H
    { m with video := { m.video with win := updAt m.video.win 1 ({ m.video.win 1 with right := v }) } }
  else if io = 0x43 then
    { m with video := { m.video with win := updAt m.video.win 1 ({ m.video.win 1 with left := v }) } }
  else if io = 0x44 then      -- WIN0V
    { m with video := { m.video with win := updAt m.video.win 0 ({ m.video.win 0 with bottom := v }) } }
  else if io = 0x45 then
    { m with video := { m.video with win := updAt m.video.win 0 ({ m.video.win 0 with top := v }) } }
  else if io = 0x46 then      -- WIN1V
    { m with video := { m.video with win := updAt m.video.win 1 ({ m.video.win 1 with bottom := v }) } }
  else if io = 0x47 then
    { m with video := { m.video with win := updAt m.video.win 1 ({ m.video.win 1 with top := v }) } }
  else if io = 0x48 then      -- WININ
    { m with video := { m.video with win := updAt m.video.win 0 ({ m.video.win 0 with bg_in0 := v &&& 1 != 0, bg_in1 := v &&& 2 != 0, bg_in2 := v &&& 4 != 0, bg_in3 := v &&& 8 != 0, obj_in := v &&& 16 != 0, sfx_in := v &&& 32 != 0 }) } }
  else if io = 0x49 then      -- WININ+1
    { m with video := { m.video with win := updAt m.video.win 1 ({ m.video.win 1 with bg_in0 := v &&& 1 != 0, bg_in1 := v &&& 2 != 0, bg_in2 := v &&& 4 != 0, bg_in3 := v &&& 8 != 0, obj_in := v &&& 16 != 0, sfx_in := v &&& 32 != 0 }) } }
  else if io = 0x4A then      -- WINOUT
    { m with video := { m.video with winout :=
        { bg0 := v &&& 1 != 0, bg1 := v &&& 2 != 0,
          bg2 := v &&& 4 != 0, bg3 := v &&& 8 != 0,
          obj := v &&& 16 != 0, sfx := v &&& 32 != 0 } } }
  else if io = 0x4B then m    -- WINOUT+1 (OBJWIN unimplemented)
  else if 0xB0 ≤ io ∧ io ≤ 0xB3 then dmaSrcByte m 0 ((io - 0xB0) * 8) v
  else if 0xBC ≤ io ∧ io ≤ 0xBF then dmaSrcByte m 1 ((io - 0xBC) * 8) v
  else if 0xC8 ≤ io ∧ io ≤ 0xCB then dmaSrcByte m 2 ((io - 0xC8) * 8) v
  else if 0xD4 ≤ io ∧ io ≤ 0xD7 then dmaSrcByte m 3 ((io - 0xD4) * 8) v
  else if 0xB4 ≤ io ∧ io ≤ 0xB7 then dmaDstByte m 0 ((io - 0xB4) * 8) v
  else if 0xC0 ≤ io ∧ io ≤ 0xC3 then dmaDstByte m 1 ((io - 0xC0) * 8) v
  else if 0xCC ≤ io ∧ io ≤ 0xCF then dmaDstByte m 2 ((io - 0xCC) * 8) v
  else if 0xD8 ≤ io ∧ io ≤ 0xDB then dmaDstByte m 3 ((io - 0xD8) * 8) v
  else if io = 0xB8 then dmaCntLoByte m 0 v true    -- DMA0CNT_L
  else if io = 0xB9 then dmaCntLoByte m 0 v false
  else if io = 0xC4 then dmaCntLoByte m 1 v true    -- DMA1CNT_L
  else if io = 0xC5 then dmaCntLoByte m 1 v false
  else if io = 0xD0 then dmaCntLoByte m 2 v true    -- DMA2CNT_L
  else if io = 0xD1 then dmaCntLoByte m 2 v false
  else if io = 0xDC then dmaCntLoByte m 3 v true    -- DMA3CNT_L
  else if io = 0xDD then dmaCntLoByte m 3 v false
  else if io = 0xBA then dmaCntHiLoByte m 0 v       -- DMA0CNT_H
  else if io = 0xBB then dmaCntHiHiByte m 0 v
  else if io = 0xC6 then dmaCntHiLoByte m 1 v       -- DMA1CNT_H
  else if io = 0xC7 then dmaCntHiHiByte m 1 v
  else if io = 0xD2 then dmaCntHiLoByte m 2 v       -- DMA2CNT_H
  else if io = 0xD3 then dmaCntHiHiByte m 2 v
  else if io = 0xDE then dmaCntHiLoByte m 3 v       -- DMA3CNT_H
  else if io = 0xDF then dmaCntHiHiByte m 3 v
  else if io = 0x100 then timerReloadByte m 0 v true    -- TM0CNT_L
  else if io = 0x101 then timerReloadByte m 0 v false
  else if io = 0x104 then timerReloadByte m 1 v true    -- TM1CNT_L
  else if io = 0x105 then timerReloadByte m 1 v false
  else if io = 0x108 then timerReloadByte m 2 v true    -- TM2CNT_L
  else if io = 0x109 then timerReloadByte m 2 v false
  else if io = 0x10C then timerReloadByte m 3 v true    -- TM3CNT_L
  else if io = 0x10D then timerReloadByte m 3 v false
  else if io = 0x102 ∨ io = 0x106 ∨ io = 0x10A ∨ io = 0x10E then
    let n := (io - 0x102) / 4                           -- TM0..3 CNT_H
    { m with timer := updAt m.timer n ({ m.timer n with clock := v &&& 3, countup := v &&& 4 != 0, interrupt := v &&& 64 != 0, enable := v &&& 128 != 0 }) }
  else if io = 0x200 then     -- IE
    { m with interrupt :=
        { m.interrupt with ie := (m.interrupt.ie &&& 0xFF00) ||| v } }
  else if io = 0x201 then
    { m with interrupt :=
        { m.interrupt with ie :=
            (m.interrupt.ie &&& 0x00FF) ||| (v <<< 8) } }
  else if io = 0x202 then     -- IF: u16 if_ &= ~value, value being a u8
    { m with interrupt :=
        { m.interrupt with if_ := m.interrupt.if_ &&& (0xFFFF ^^^ v) } }
  else if io = 0x203 then     -- IF+1: u16 if_ &= ~(value << 8)
    { m with interrupt :=
        { m.interrupt with if_ :=
            m.interrupt.if_ &&& (0xFFFF ^^^ (v <<< 8)) } }
  else if io = 0x204 then     -- WAITCNT
    { m with waitstate := { m.waitstate with
        sram := v &&& 3,
        first0 := (v >>> 2) &&& 3,
        second0 := (v >>> 4) &&& 1,
        first1 := (v >>> 5) &&& 3,
        second1 := v >>> 7 } }
  else if io = 0x205 then     -- WAITCNT+1
    { m with waitstate := { m.waitstate with
        first2 := v &&& 3,
        second2 := (v >>> 2) &&& 1,
        prefetch := v &&& 64 != 0 } }
  else if io = 0x208 then     -- IME
    { m with interrupt :=
        { m.interrupt with ime := (m.interrupt.ime &&& 0xFF00) ||| v } }
  else if io = 0x209 then
    { m with interrupt :=
        { m.interrupt with ime :=
            (m.interrupt.ime &&& 0x00FF) ||| (v <<< 8) } }
  else if io = 0x301 then     -- HALTCNT
    { m with haltState :=
        if v &&& 0x80 != 0 then HaltState.STOP else HaltState.HALT }
  else m

/-- Both-lanes halfword store into palette RAM: the page-5 case of
GBAMemory::WriteHWord. -/
def palWriteHWord (m : GBAMemory) (io v : Nat) : GBAMemory :=
  { m with video := { m.video with
      pal := updAt (updAt m.video.pal (io % 0x400) (v &&& 0xFF)) ((io + 1) % 0x400) ((v >>> 8) &&& 0xFF) } }

/-- Both-lanes halfword store into VRAM with the mirror fold: the page-6
case of GBAMemory::WriteHWord. -/
def vramWriteHWord (m : GBAMemory) (io v : Nat) : GBAMemory :=
  let io := vramFold io
  { m with video := { m.video with
      vram := updAt (updAt m.video.vram io (v &&& 0xFF)) (io + 1) ((v >>> 8) &&& 0xFF) } }

/-- Both-lanes halfword store into OAM: the page-7 case of
GBAMemory::WriteHWord. -/
def oamWriteHWord (m : GBAMemory) (io v : Nat) : GBAMemory :=
  { m with video := { m.video with
      oam := updAt (updAt m.video.oam (io % 0x400) (v &&& 0xFF)) ((io + 1) % 0x400) ((v >>> 8) &&& 0xFF) } }

/-- GBAMemory::WriteByte from memory.h.  The value is masked to the u8
parameter width.  In the source the page 5/6/7 cases call
WriteHWord(offset & ~1, (value << 8) | value); for those pages WriteHWord
performs exactly the direct lane stores, which are inlined here (writeByte
and writeHWord would otherwise be mutually recursive); the equivalence with
writeHWord is proved in the C3 theorem.  Page 0 (BIOS) and pages 8/9 (ROM)
drop the write (the source only logs); page 0xE is the out-of-scope backup
collaborator. -/
def writeByte (m : GBAMemory) (offset value : Nat) : GBAMemory :=
  let value := value &&& 0xFF
  let page := offset >>> 24
  let internal := offset &&& 0xFFFFFF
  match page with
  | 0 => m
  | 2 => { m with wram := updAt m.wram (internal % 0x40000) value }
  | 3 => { m with iram := updAt m.iram (internal % 0x8000) value }
  | 4 =>
      if 0x3FF ≤ internal ∧ internal &&& 0xFFFF ≠ 0x800 then m
      else
        ioWriteByte m
          (if internal &&& 0xFFFF = 0x800 then internal &&& 0xFFFF
           else internal)
          value
  | 5 => palWriteHWord m ((offset &&& 0xFFFFFE) &&& 0xFFFFFF)
           ((value <<< 8) ||| value)
  | 6 => vramWriteHWord m ((offset &&& 0xFFFFFE) &&& 0xFFFFFF)
           ((value <<< 8) ||| value)
  | 7 => oamWriteHWord m ((offset &&& 0xFFFFFE) &&& 0xFFFFFF)
           ((value <<< 8) ||| value)
  | 8 => m
  | 9 => m
  | 14 => m
  | _ => m

/-- GBAMemory::WriteHWord from memory.h: pages 5/6/7 (by low nibble) store
both byte lanes directly; all other pages fall back to two unaligned byte
writes, offset+1 being u32 arithmetic. -/
def writeHWord (m : GBAMemory) (offset value : Nat) : GBAMemory :=
  let value := value &&& 0xFFFF
  let page := (offset >>> 24) &&& 0xF
  let internal := offset &&& 0xFFFFFF
  match page with
  | 5 => palWriteHWord m internal value
  | 6 => vramWriteHWord m internal value
  | 7 => oamWriteHWord m internal value
  | _ =>
      writeByte (writeByte m offset (value &&& 0xFF))
        ((offset + 1) &&& 0xFFFFFFFF) ((value >>> 8) &&& 0xFF)

/-- GBAMemory::WriteWord from memory.h: two halfword writes, then the
special timer behaviour — a written value with bit 23 set at exactly
TMnCNT_L (0x04000100 + 4n) additionally copies that timer reload into its
count. -/
def writeWord (m : GBAMemory) (offset value : Nat) : GBAMemory :=
  let value := value &&& 0xFFFFFFFF
  let m := writeHWord m offset (value &&& 0xFFFF)
  let m := writeHWord m ((offset + 2) &&& 0xFFFFFFFF) ((value >>> 16) &&& 0xFFFF)
  if value &&& 0x800000 ≠ 0 then
    if offset = 0x04000100 then
      { m with timer := updAt m.timer 0 ({ m.timer 0 with count := (m.timer 0).reload }) }
    else if offset = 0x04000104 then
      { m with timer := updAt m.timer 1 ({ m.timer 1 with count := (m.timer 1).reload }) }
    else if offset = 0x04000108 then
      { m with timer := updAt m.timer 2 ({ m.timer 2 with count := (m.timer 2).reload }) }
    else if offset = 0x0400010C then
      { m with timer := updAt m.timer 3 ({ m.timer 3 with count := (m.timer 3).reload }) }
    else m
  else m

/-! ## Timers (GBAMemory::RunTimer, memory.h lines 622-648) -/

/-- Loop body of GBAMemory::RunTimer for timer i: takes the timer, the
running overflow flag threaded from the previous iterations and the
interrupt-flag register, and returns their updated values.  A disabled
timer is skipped and passes the flag through unchanged.  The ticks
increment happens inside the short-circuited condition, so it occurs
exactly when the timer is enabled and not in count-up mode. -/
def stepTimer (i : Nat) (t : TimerChan) (overflow : Bool) (iflag : Nat) :
    TimerChan × Bool × Nat :=
  if t.enable = false then (t, overflow, iflag)
  else if (t.countup = true ∧ overflow = true) ∨
          (t.countup = false ∧ tmr_cycles.getD t.clock 0 ≤ t.ticks + 1) then
    if t.count ≠ 0xFFFF then
      ({ t with ticks := 0, count := (t.count + 1) % 65536 }, false, iflag)
    else
      ({ t with ticks := 0, count := t.reload }, true,
       if t.interrupt then iflag ||| (8 <<< i) else iflag)
  else
    ({ t with ticks := if t.countup = false then t.ticks + 1 else t.ticks },
     overflow, iflag)

/-- GBAMemory::RunTimer: the four timers in order, threading the local
overflow flag from each to the next. -/
def runTimer (m : GBAMemory) : GBAMemory :=
  let r0 := stepTimer 0 (m.timer 0) false m.interrupt.if_
  let r1 := stepTimer 1 (m.timer 1) r0.2.1 r0.2.2
  let r2 := stepTimer 2 (m.timer 2) r1.2.1 r1.2.2
  let r3 := stepTimer 3 (m.timer 3) r2.2.1 r2.2.2
  { m with
      timer := updAt (updAt (updAt (updAt m.timer 0 r0.1) 1 r1.1) 2 r2.1) 3 r3.1,
      interrupt := { m.interrupt with if_ := r3.2.2 } }

/-! ## Access-cycle LUT (CPU::UpdateCycleLUT, cpu.cpp lines 187-223) -/

/-- Modelled from the spec: the waitstate table s_ws_nseq of the CPU class
is only declared in cpu.cpp (its defining header cpu.hpp is not among the
sources); the values are the N table {4,3,2,8} of spec section 8 item 5,
which also match wsn_table of the older memory.h. -/
def s_ws_nseq : List Nat := [4, 3, 2, 8]
/-- Modelled from the spec: WS0 sequential table {2,1} (s_ws_seq0,
declared only in cpu.cpp). -/
def s_ws_seq0 : List Nat := [2, 1]
/-- Modelled from the spec: WS1 sequential table {4,1} (s_ws_seq1,
declared only in cpu.cpp). -/
def s_ws_seq1 : List Nat := [4, 1]
/-- Modelled from the spec: WS2 sequential table {8,1} (s_ws_seq2,
declared only in cpu.cpp). -/
def s_ws_seq2 : List Nat := [8, 1]

/-- WAITCNT fields of the newer core (mmio.waitcnt in cpu.cpp). -/
structure WaitCnt where
  sram     : Nat
  ws0_n    : Nat
  ws0_s    : Nat
  ws1_n    : Nat
  ws1_s    : Nat
  ws2_n    : Nat
  ws2_s    : Nat
  phi      : Nat
  prefetch : Nat
  cgb      : Nat

/-- Access-cycle lookup tables of the newer core: cycles16/cycles32 indexed
by sequentiality (split into fields here) and page nibble. -/
structure CycleLUT where
  n16 : Nat → Nat
  s16 : Nat → Nat
  n32 : Nat → Nat
  s32 : Nat → Nat

/-- One iteration (i = 0 or 1, covering both mirrors of each ROM image) of
the ROM loop of CPU::UpdateCycleLUT.  The 32-bit entries read the 16-bit
entries assigned earlier in the same pass, as in the source. -/
def romLutPass (wc : WaitCnt) (i : Nat) (lut : CycleLUT) : CycleLUT :=
  let n16 := updAt (updAt (updAt lut.n16
      (0x8 + i) (1 + s_ws_nseq.getD wc.ws0_n 0))
      (0xA + i) (1 + s_ws_nseq.getD wc.ws1_n 0))
      (0xC + i) (1 + s_ws_nseq.getD wc.ws2_n 0)
  let s16 := updAt (updAt (updAt lut.s16
      (0x8 + i) (1 + s_ws_seq0.getD wc.ws0_s 0))
      (0xA + i) (1 + s_ws_seq1.getD wc.ws1_s 0))
      (0xC + i) (1 + s_ws_seq2.getD wc.ws2_s 0)
  let n32 := updAt (updAt (updAt lut.n32
      (0x8 + i) (n16 0x8 + s16 0x8))
      (0xA + i) (n16 0xA + s16 0xA))
      (0xC + i) (n16 0xC + s16 0xC)
  let s32 := updAt (updAt (updAt lut.s32
      (0x8 + i) (s16 0x8 * 2))
      (0xA + i) (s16 0xA * 2))
      (0xC + i) (s16 0xC * 2)
  { n16 := n16, s16 := s16, n32 := n32, s32 := s32 }

/-- CPU::UpdateCycleLUT from cpu.cpp: SRAM waitstates for page 0xE, then
the two ROM passes. -/
def updateCycleLUT (wc : WaitCnt) (lut : CycleLUT) : CycleLUT :=
  let sram_cycles := 1 + s_ws_nseq.getD wc.sram 0
  let lut := { lut with
      n16 := updAt lut.n16 0xE sram_cycles,
      n32 := updAt lut.n32 0xE sram_cycles,
      s16 := updAt lut.s16 0xE sram_cycles,
      s32 := updAt lut.s32 0xE sram_cycles }
  romLutPass wc 1 (romLutPass wc 0 lut)

/-! ## IRQ entry (ARM7::FireIRQ, arm7.cpp lines 350-363) -/

/-- Modelled from the spec: CPSR Thumb bit (bit 5 per spec section 3; the
constant Thumb lives in arm7.h, which is not among the sources). -/
def CPSR_THUMB : Nat := 0x20
/-- Modelled from the spec: CPSR IRQ-disable bit (bit 7 per spec
section 3; the constant IRQDisable lives in arm7.h). -/
def CPSR_IRQ_DISABLE : Nat := 0x80
/-- Modelled from the spec: IRQ mode number 0x12 per spec section 3
(ARM7Mode::IRQ lives in arm7.h). -/
def IRQ_MODE : Nat := 0x12

/-- CPU state touched by ARM7::FireIRQ.  The banked register file is
explicit here, so the source call to RemapRegisters (which only re-points
the gprs pointer table at the banks) has no representational content. -/
structure ARM7State where
  r15         : Nat
  cpsr        : Nat
  r14_irq     : Nat
  spsr_irq    : Nat
  pipe_status : Nat

/-- ARM7::FireIRQ from arm7.cpp.  With the I flag clear: r14_irq receives
r15 - (thumb ? 4 : 8) + 4 in u32 arithmetic, SPSR_irq the old CPSR, CPSR
keeps bits 6+ except I which is set, mode becomes IRQ and Thumb is cleared
(cpsr & ~0x3F), r15 jumps to the IRQ vector 0x18 and the pipeline status is
reset to 0.  With the I flag set nothing happens. -/
def fireIRQ (s : ARM7State) : ARM7State :=
  if s.cpsr &&& CPSR_IRQ_DISABLE = 0 then
    { s with
        r14_irq :=
          (s.r15 + 0x100000000 -
            (if s.cpsr &&& CPSR_THUMB ≠ 0 then 4 else 8) + 4) % 0x100000000,
        spsr_irq := s.cpsr,
        cpsr := (s.cpsr &&& 0xFFFFFFC0) ||| IRQ_MODE ||| CPSR_IRQ_DISABLE,
        r15 := 0x18,
        pipe_status := 0 }
  else s

/-! ## Default states -/

/-- Default-initialised DMA channel (the brace initialisers of
memory.h). -/
def dmaChan0 : DMAChan :=
  { dest := 0, source := 0, count := 0, dest_int := 0, source_int := 0,
    count_int := 0, dest_control := 0, source_control := 0, start_time := 0,
    size := 0, repeat_ := false, gamepack_drq := false, interrupt := false,
    enable := false }

/-- Default-initialised timer. -/
def timerChan0 : TimerChan :=
  { count := 0, reload := 0, clock := 0, ticks := 0, enable := false,
    countup := false, interrupt := false, overflow := false }

/-- Freshly constructed GBAMemory with no ROM, the HLE BIOS stub loaded at
address 0, all RAMs zero, interrupts clear and keys released — the
constructor state of memory.h for an empty cartridge. -/
def mem0 : GBAMemory :=
  { rom := fun _ => 0,
    romSize := 0,
    bios := fun i => hle_bios.getD i 0,
    wram := fun _ => 0,
    iram := fun _ => 0,
    saveType := SaveType.SRAM,
    dma := fun _ => dmaChan0,
    timer := fun _ => timerChan0,
    waitstate := { sram := 0, first0 := 0, first1 := 0, first2 := 0,
                   second0 := 0, second1 := 0, second2 := 0,
                   prefetch := false },
    soundbias := 0,
    interrupt := { ie := 0, if_ := 0, ime := 0 },
    haltState := HaltState.NONE,
    video := video0,
    keyinput := 0x3FF }

/-! ## Bitwise helper lemmas -/

theorem shiftRight_land (a c k : Nat) :
    (a &&& c) >>> k = (a >>> k) &&& (c >>> k) := by
  apply Nat.eq_of_testBit_eq
  intro j
  simp

theorem or_shiftLeft (x y n : Nat) :
    (x ||| y) <<< n = (x <<< n) ||| (y <<< n) := by
  apply Nat.eq_of_testBit_eq
  intro j
  simp [Bool.and_or_distrib_left]

/-! ## C1: WAITCNT-derived ROM access cycles -/

/-- C1 (settling against both implementations in the sources): for every
WAITCNT value, CPU::UpdateCycleLUT sets the 16-bit non-sequential ROM
entries (pages 8/9, A/B, C/D) to 1 + N[wsX_n] with N = {4,3,2,8} and the
32-bit sequential entries to 2 × (1 + S[wsX_s]) with the per-image S
tables {2,1}, {4,1}, {8,1} — exactly as the claim states; the older
GBAMemory::NonSequentialAccess / SequentialAccess instead return
1 + S[ws0_s] for a non-sequential 16-bit ROM access and 1 + 2 × N[ws0_n]
for a sequential 32-bit one (the N and S tables are swapped), evaluated
here at the failing input 0x08000000 with reset waitstates, where they
produce 3 and 9 instead of the claimed 5 and 6. -/
theorem C1_waitcnt_rom_cycles :
    (∀ wc lut,
      ((updateCycleLUT wc lut).n16 0x8 = 1 + s_ws_nseq.getD wc.ws0_n 0 ∧
       (updateCycleLUT wc lut).n16 0x9 = 1 + s_ws_nseq.getD wc.ws0_n 0 ∧
       (updateCycleLUT wc lut).s32 0x8 =
         2 * (1 + s_ws_seq0.getD wc.ws0_s 0) ∧
       (updateCycleLUT wc lut).s32 0x9 =
         2 * (1 + s_ws_seq0.getD wc.ws0_s 0)) ∧
      ((updateCycleLUT wc lut).n16 0xA = 1 + s_ws_nseq.getD wc.ws1_n 0 ∧
       (updateCycleLUT wc lut).n16 0xB = 1 + s_ws_nseq.getD wc.ws1_n 0 ∧
       (updateCycleLUT wc lut).s32 0xA =
         2 * (1 + s_ws_seq1.getD wc.ws1_s 0) ∧
       (updateCycleLUT wc lut).s32 0xB =
         2 * (1 + s_ws_seq1.getD wc.ws1_s 0)) ∧
      ((updateCycleLUT wc lut).n16 0xC = 1 + s_ws_nseq.getD wc.ws2_n 0 ∧
       (updateCycleLUT wc lut).n16 0xD = 1 + s_ws_nseq.getD wc.ws2_n 0 ∧
       (updateCycleLUT wc lut).s32 0xC =
         2 * (1 + s_ws_seq2.getD wc.ws2_s 0) ∧
       (updateCycleLUT wc lut).s32 0xD =
         2 * (1 + s_ws_seq2.getD wc.ws2_s 0))) ∧
    (nonSequentialAccess mem0 0x08000000 AccessSize.hword =
       1 + wss0_table.getD mem0.waitstate.second0 0 ∧
     nonSequentialAccess mem0 0x08000000 AccessSize.hword = 3 ∧
     1 + wsn_table.getD mem0.waitstate.first0 0 = 5 ∧
     sequentialAccess mem0 0x08000000 AccessSize.word =
       1 + 2 * wsn_table.getD mem0.waitstate.first0 0 ∧
     sequentialAccess mem0 0x08000000 AccessSize.word = 9 ∧
     2 * (1 + wss0_table.getD mem0.waitstate.second0 0) = 6) := by
  constructor
  · intro wc lut
    refine ⟨⟨rfl, rfl, ?_, ?_⟩, ⟨rfl, rfl, ?_, ?_⟩, ⟨rfl, rfl, ?_, ?_⟩⟩ <;>
      exact Nat.mul_comm _ 2
  · exact ⟨rfl, rfl, rfl, rfl, rfl, rfl⟩

theorem or_land_distrib (x y z : Nat) :
    (x ||| y) &&& z = (x &&& z) ||| (y &&& z) := by
  apply Nat.eq_of_testBit_eq
  intro j
  simp [Bool.and_or_distrib_right]

/-! ## C7: IRQ entry -/

/-- C7: if CPSR.I is clear when the IRQ fires, r14_irq receives the
executing instruction PC + 4 (r15 minus the pipeline lead  4 in Thumb,
8 in ARM  plus 4), SPSR_irq the old CPSR, the mode becomes IRQ (0x12),
the I flag is set, the T flag is cleared, r15 becomes 0x18 and the
pipeline status is 0; if CPSR.I is set the state is unchanged. -/
theorem C7_fire_irq (s : ARM7State) :
    (s.cpsr &&& CPSR_IRQ_DISABLE = 0 → 8 ≤ s.r15 → s.r15 < 0x100000000 →
      ((fireIRQ s).r14_irq =
         s.r15 - (if s.cpsr &&& CPSR_THUMB ≠ 0 then 4 else 8) + 4 ∧
       (fireIRQ s).spsr_irq = s.cpsr ∧
       (fireIRQ s).cpsr &&& 0x1F = 0x12 ∧
       (fireIRQ s).cpsr &&& CPSR_IRQ_DISABLE = CPSR_IRQ_DISABLE ∧
       (fireIRQ s).cpsr &&& CPSR_THUMB = 0 ∧
       (fireIRQ s).r15 = 0x18 ∧
       (fireIRQ s).pipe_status = 0)) ∧
    (s.cpsr &&& CPSR_IRQ_DISABLE ≠ 0 → fireIRQ s = s) := by
  constructor
  · intro h0 hlo hhi
    unfold fireIRQ
    rw [if_pos h0]
    simp only [CPSR_IRQ_DISABLE] at h0
    refine ⟨?_, rfl, ?_, ?_, ?_, rfl, rfl⟩
    · dsimp only
      split <;> omega
    · have e1 : (0xFFFFFFC0 &&& 0x1F : Nat) = 0 := rfl
      have e2 : (0x12 &&& 0x1F : Nat) = 0x12 := rfl
      have e3 : (0x80 &&& 0x1F : Nat) = 0 := rfl
      simp only [IRQ_MODE, CPSR_IRQ_DISABLE, or_land_distrib, Nat.and_assoc]
      simp [e1, e2, e3]
    · have e4 : (0xFFFFFFC0 &&& 0x80 : Nat) = 0x80 := rfl
      have e5 : (0x12 &&& 0x80 : Nat) = 0 := rfl
      have e6 : (0x80 &&& 0x80 : Nat) = 0x80 := rfl
      simp only [IRQ_MODE, CPSR_IRQ_DISABLE, or_land_distrib, Nat.and_assoc]
      simp [e4, e5, e6, h0]
    · have e7 : (0xFFFFFFC0 &&& 0x20 : Nat) = 0 := rfl
      have e8 : (0x12 &&& 0x20 : Nat) = 0 := rfl
      have e9 : (0x80 &&& 0x20 : Nat) = 0 := rfl
      simp only [IRQ_MODE, CPSR_IRQ_DISABLE, CPSR_THUMB, or_land_distrib,
        Nat.and_assoc]
      simp [e7, e8, e9]
  · intro h0
    unfold fireIRQ
    rw [if_neg h0]

/-- Witness for C7: the theorem applied to a CPU in ARM user mode
(CPSR = 0x10, so I clear) at PC 0x08000008. -/
theorem C7_fire_irq_witness :
    (fireIRQ { r15 := 0x08000008, cpsr := 0x10, r14_irq := 0,
               spsr_irq := 0, pipe_status := 2 }).r15 = 0x18 ∧
    (fireIRQ { r15 := 0x08000008, cpsr := 0x10, r14_irq := 0,
               spsr_irq := 0, pipe_status := 2 }).cpsr &&& 0x1F = 0x12 :=
  ⟨((C7_fire_irq _).1 (by decide) (by decide) (by decide)).2.2.2.2.2.1,
   ((C7_fire_irq _).1 (by decide) (by decide) (by decide)).2.2.1⟩

/-! ## C9: timer overflow, IRQ bit and chaining -/

/-- C9 (amended): for the RunTimer loop body — a disabled timer passes the
running overflow flag through unchanged; an enabled count-up timer advances
exactly when the flag is set (unchanged state when clear); when an enabled
timer advances (by chaining or by reaching its prescaler boundary) while
its count is 0xFFFF, the count is reloaded from reload, the overflow flag
handed to the next timer is set, and when its IRQ flag is enabled the
interrupt bit 8 << i (0x08/0x10/0x20/0x40 for timers 0..3 — not
8 << (3+i)) is raised in IF; a non-wrapping advance clears the flag. -/
theorem C9_timer_overflow (i : Nat) (t : TimerChan) (ov : Bool) (f : Nat) :
    (t.enable = false → stepTimer i t ov f = (t, ov, f)) ∧
    (t.enable = true → t.countup = true → ov = false →
       stepTimer i t ov f = (t, false, f)) ∧
    (t.enable = true → t.countup = true → ov = true → t.count = 0xFFFF →
       stepTimer i t ov f =
         ({ t with ticks := 0, count := t.reload }, true,
          if t.interrupt then f ||| (8 <<< i) else f)) ∧
    (t.enable = true → t.countup = false →
       tmr_cycles.getD t.clock 0 ≤ t.ticks + 1 → t.count = 0xFFFF →
       stepTimer i t ov f =
         ({ t with ticks := 0, count := t.reload }, true,
          if t.interrupt then f ||| (8 <<< i) else f)) ∧
    (t.enable = true → t.countup = true → ov = true → t.count ≠ 0xFFFF →
       stepTimer i t ov f =
         ({ t with ticks := 0, count := (t.count + 1) % 65536 }, false, f)) := by
  obtain ⟨tc, tr, tk, tt, te, tcu, ti, tov⟩ := t
  refine ⟨?_, ?_, ?_, ?_, ?_⟩
  · intro h1
    subst h1
    simp [stepTimer]
  · intro h1 h2 h3
    subst h1
    subst h2
    subst h3
    simp [stepTimer]
  · intro h1 h2 h3 h4
    subst h1
    subst h2
    subst h3
    subst h4
    simp [stepTimer]
  · intro h1 h2 h4 h5
    subst h1
    subst h2
    subst h5
    dsimp only at h4
    simp [stepTimer, h4]
    simpa using h4
  · intro h1 h2 h3 h4
    subst h1
    subst h2
    subst h3
    simp [stepTimer, h4]

/-- Concrete timer for the C9 witness: enabled, IRQ flag on, count at
0xFFFF, reload 7. -/
def c9t0 : TimerChan :=
  { count := 0xFFFF, reload := 7, clock := 0, ticks := 0, enable := true,
    countup := false, interrupt := true, overflow := false }

/-- Witness for C9: timer 0 at count 0xFFFF with prescaler 1 and IRQ
enabled advances, reloads and raises IF bit 8. -/
theorem C9_timer_overflow_witness :
    stepTimer 0 c9t0 false 0 =
      ({ c9t0 with ticks := 0, count := c9t0.reload }, true,
       if c9t0.interrupt then 0 ||| (8 <<< 0) else 0) :=
  (C9_timer_overflow 0 c9t0 false 0).2.2.2.1 rfl rfl (by decide) rfl

/-- Timer 0 of the C9 counterexample: about to wrap, IRQ flag set. -/
def c9ta : TimerChan :=
  { count := 0xFFFF, reload := 0, clock := 0, ticks := 0, enable := true,
    countup := false, interrupt := true, overflow := false }

/-- Timer 2 of the C9 counterexample: enabled in count-up mode. -/
def c9tb : TimerChan :=
  { count := 5, reload := 0, clock := 0, ticks := 0, enable := true,
    countup := true, interrupt := false, overflow := false }

/-- Concrete timer bank for the C9 counterexample: timer 0 about to wrap
with its IRQ flag set, timer 1 disabled, timer 2 enabled in count-up
mode. -/
def c9mem : GBAMemory :=
  { mem0 with timer := updAt (updAt mem0.timer 0 c9ta) 2 c9tb }

/-! ## C3 / C4: byte-lane behaviour of the write paths -/

/-- Formulation of the u32 mask as a modulus. -/
theorem land32 (x : Nat) : x &&& 0xFFFFFFFF = x % 0x100000000 := by
  have := Nat.and_pow_two_sub_one_eq_mod x 32
  norm_num at this
  exact this


theorem mask16_lo (x : Nat) : (x &&& 0xFFFF) &&& 0xFF = x &&& 0xFF := by
  rw [Nat.and_assoc]
  exact congrArg (x &&& .) (by decide)

theorem mask16_hi (x : Nat) :
    ((x &&& 0xFFFF) >>> 8) &&& 0xFF = (x >>> 8) &&& 0xFF := by
  rw [shiftRight_land, Nat.and_assoc]
  exact congrArg (x >>> 8 &&& .) (by decide)

theorem palWriteHWord_mask (m : GBAMemory) (io w : Nat) :
    palWriteHWord m io (w &&& 0xFFFF) = palWriteHWord m io w := by
  simp only [palWriteHWord, mask16_lo, mask16_hi]

theorem vramWriteHWord_mask (m : GBAMemory) (io w : Nat) :
    vramWriteHWord m io (w &&& 0xFFFF) = vramWriteHWord m io w := by
  simp only [vramWriteHWord, mask16_lo, mask16_hi]

theorem oamWriteHWord_mask (m : GBAMemory) (io w : Nat) :
    oamWriteHWord m io (w &&& 0xFFFF) = oamWriteHWord m io w := by
  simp only [oamWriteHWord, mask16_lo, mask16_hi]

/-- C3 (amended): a 16-bit write to palette RAM, VRAM or OAM stores both
byte lanes of the value (with the region modulus, and the VRAM mirror
fold); an 8-bit write to palette RAM, VRAM *or OAM* is widened to the
16-bit write of the byte doubled into both halves at the address with bit
0 cleared; an 8-bit write to ROM is dropped.  (The claim that 8-bit OAM
writes are ignored is refuted by the counterexample: the source routes
pages 5, 6 and 7 through the same widening path.) -/
theorem C3_byte_lane_writes (m : GBAMemory) (a v : Nat) :
    ((a >>> 24) &&& 0xF = 5 →
      (writeHWord m a v).video.pal =
        updAt (updAt m.video.pal ((a &&& 0xFFFFFF) % 0x400) (v &&& 0xFF))
          (((a &&& 0xFFFFFF) + 1) % 0x400) ((v >>> 8) &&& 0xFF)) ∧
    ((a >>> 24) &&& 0xF = 6 →
      (writeHWord m a v).video.vram =
        updAt (updAt m.video.vram (vramFold (a &&& 0xFFFFFF)) (v &&& 0xFF))
          (vramFold (a &&& 0xFFFFFF) + 1) ((v >>> 8) &&& 0xFF)) ∧
    ((a >>> 24) &&& 0xF = 7 →
      (writeHWord m a v).video.oam =
        updAt (updAt m.video.oam ((a &&& 0xFFFFFF) % 0x400) (v &&& 0xFF))
          (((a &&& 0xFFFFFF) + 1) % 0x400) ((v >>> 8) &&& 0xFF)) ∧
    ((a >>> 24 = 5 ∨ a >>> 24 = 6 ∨ a >>> 24 = 7) →
      writeByte m a v =
        writeHWord m (a &&& 0xFFFFFFFE)
          (((v &&& 0xFF) <<< 8) ||| (v &&& 0xFF))) ∧
    ((a >>> 24 = 8 ∨ a >>> 24 = 9) → writeByte m a v = m) := by
  have haddr : (a &&& 0xFFFFFFFE) &&& 0xFFFFFF = (a &&& 0xFFFFFE) &&& 0xFFFFFF := by
    rw [Nat.and_assoc, Nat.and_assoc]
    exact congrArg (a &&& .) (by decide)
  refine ⟨?_, ?_, ?_, ?_, ?_⟩
  · intro h
    simp only [writeHWord]
    rw [h]
    simp only [palWriteHWord, mask16_lo, mask16_hi]
  · intro h
    simp only [writeHWord]
    rw [h]
    simp only [vramWriteHWord, mask16_lo, mask16_hi]
  · intro h
    simp only [writeHWord]
    rw [h]
    simp only [oamWriteHWord, mask16_lo, mask16_hi]
  · intro h
    rcases h with h|h|h
    · have hnib : ((a &&& 0xFFFFFFFE) >>> 24) &&& 0xF = 5 := by
        rw [shiftRight_land, h]
        decide
      have hL : writeByte m a v =
          palWriteHWord m ((a &&& 0xFFFFFE) &&& 0xFFFFFF)
            (((v &&& 0xFF) <<< 8) ||| (v &&& 0xFF)) := by
        simp only [writeByte]
        rw [h]
      have hR : writeHWord m (a &&& 0xFFFFFFFE)
          (((v &&& 0xFF) <<< 8) ||| (v &&& 0xFF)) =
          palWriteHWord m ((a &&& 0xFFFFFFFE) &&& 0xFFFFFF)
            ((((v &&& 0xFF) <<< 8) ||| (v &&& 0xFF)) &&& 0xFFFF) := by
        simp only [writeHWord]
        rw [hnib]
      rw [hL, hR, palWriteHWord_mask, haddr]
    · have hnib : ((a &&& 0xFFFFFFFE) >>> 24) &&& 0xF = 6 := by
        rw [shiftRight_land, h]
        decide
      have hL : writeByte m a v =
          vramWriteHWord m ((a &&& 0xFFFFFE) &&& 0xFFFFFF)
            (((v &&& 0xFF) <<< 8) ||| (v &&& 0xFF)) := by
        simp only [writeByte]
        rw [h]
      have hR : writeHWord m (a &&& 0xFFFFFFFE)
          (((v &&& 0xFF) <<< 8) ||| (v &&& 0xFF)) =
          vramWriteHWord m ((a &&& 0xFFFFFFFE) &&& 0xFFFFFF)
            ((((v &&& 0xFF) <<< 8) ||| (v &&& 0xFF)) &&& 0xFFFF) := by
        simp only [writeHWord]
        rw [hnib]
      rw [hL, hR, vramWriteHWord_mask, haddr]
    · have hnib : ((a &&& 0xFFFFFFFE) >>> 24) &&& 0xF = 7 := by
        rw [shiftRight_land, h]
        decide
      have hL : writeByte m a v =
          oamWriteHWord m ((a &&& 0xFFFFFE) &&& 0xFFFFFF)
            (((v &&& 0xFF) <<< 8) ||| (v &&& 0xFF)) := by
        simp only [writeByte]
        rw [h]
      have hR : writeHWord m (a &&& 0xFFFFFFFE)
          (((v &&& 0xFF) <<< 8) ||| (v &&& 0xFF)) =
          oamWriteHWord m ((a &&& 0xFFFFFFFE) &&& 0xFFFFFF)
            ((((v &&& 0xFF) <<< 8) ||| (v &&& 0xFF)) &&& 0xFFFF) := by
        simp only [writeHWord]
        rw [hnib]
      rw [hL, hR, oamWriteHWord_mask, haddr]
  · intro h
    rcases h with h|h <;>
    · simp only [writeByte]
      rw [h]

/-- C3 counterexample: an 8-bit write of 0xAB to OAM address 0x07000000 is
not ignored — it stores 0xAB into both OAM byte lanes 0 and 1 of the
previously zeroed memory, so the claim that 8-bit writes to OAM are
ignored is false on this code. -/
theorem C3_counterexample :
    (writeByte mem0 0x07000000 0xAB).video.oam 0 = 0xAB ∧
    (writeByte mem0 0x07000000 0xAB).video.oam 1 = 0xAB ∧
    mem0.video.oam 0 = 0 ∧
    (0xAB : Nat) ≠ 0 :=
  ⟨by decide, by decide, rfl, by decide⟩

/-- Witness for C3: a concrete 16-bit palette write with both lanes. -/
theorem C3_byte_lane_writes_witness :
    (writeHWord mem0 0x05000000 0x1234).video.pal =
      updAt (updAt mem0.video.pal (((0x05000000 : Nat) &&& 0xFFFFFF) % 0x400)
          ((0x1234 : Nat) &&& 0xFF))
        ((((0x05000000 : Nat) &&& 0xFFFFFF) + 1) % 0x400)
        (((0x1234 : Nat) >>> 8) &&& 0xFF) :=
  (C3_byte_lane_writes mem0 0x05000000 0x1234).1 (by decide)

/-- C4 (amended): the halfword and word access functions do not
force-align addresses.  A 16-bit read at a reads exactly bytes a and a+1
(u32 arithmetic), a 32-bit read is the two 16-bit reads at a and a+2, and
a 16-bit write outside the PAL/VRAM/OAM lane pages decomposes into the two
byte writes at a and a+1; alignment masking happens only at call sites
(CPU fetch, DMA), not on the bus functions, so reading or writing at a is
not reading or writing at a with the low bits cleared (see the
counterexample). -/
theorem C4_no_alignment (m : GBAMemory) (a v : Nat) :
    (readHWord m a =
      readByte m a ||| (readByte m ((a + 1) &&& 0xFFFFFFFF) <<< 8)) ∧
    (readWord m a =
      readHWord m a ||| (readHWord m ((a + 2) &&& 0xFFFFFFFF) <<< 16)) ∧
    ((a >>> 24) &&& 0xF ≠ 5 → (a >>> 24) &&& 0xF ≠ 6 →
     (a >>> 24) &&& 0xF ≠ 7 →
      writeHWord m a v =
        writeByte (writeByte m a (v &&& 0xFF)) ((a + 1) &&& 0xFFFFFFFF)
          ((v >>> 8) &&& 0xFF)) := by
  refine ⟨rfl, ?_, ?_⟩
  · have e : (((a + 2) &&& 0xFFFFFFFF) + 1) &&& 0xFFFFFFFF =
        (a + 3) &&& 0xFFFFFFFF := by
      rw [land32, land32, land32]
      omega
    simp only [readWord, readHWord]
    rw [e, or_shiftLeft, Nat.shiftLeft_shiftLeft]
    exact Nat.or_assoc _ _ _
  · intro h5 h6 h7
    simp only [writeHWord]
    rw [mask16_lo, mask16_hi]

/-- Concrete WRAM contents for the C4 counterexample. -/
def memC4 : GBAMemory :=
  { mem0 with wram := updAt (updAt (updAt mem0.wram 0 0x11) 1 0x22) 2 0x33 }

/-- C4 counterexample: at the unaligned address 0x02000001 a 16-bit read
returns bytes 1 and 2 (0x3322), not the aligned pair (0x2211), and a
16-bit write to 0x02000001 stores its high byte at WRAM offset 2, which
the write at the aligned address 0x02000000 leaves untouched — so neither
reads nor writes are force-aligned by masking low address bits. -/
theorem C4_counterexample :
    readHWord memC4 0x02000001 = 0x3322 ∧
    readHWord memC4 (0x02000001 &&& 0xFFFFFFFE) = 0x2211 ∧
    (0x3322 : Nat) ≠ 0x2211 ∧
    (writeHWord mem0 0x02000001 0x1122).wram 2 = 0x11 ∧
    (writeHWord mem0 (0x02000001 &&& 0xFFFFFFFE) 0x1122).wram 2 = 0 :=
  ⟨by decide, by decide, by decide, by decide, by decide⟩

/-- Witness for C4: the byte decomposition of an unaligned halfword write
to WRAM at a concrete address. -/
theorem C4_no_alignment_witness :
    writeHWord mem0 0x02000001 0xBEEF =
      writeByte (writeByte mem0 0x02000001 ((0xBEEF : Nat) &&& 0xFF))
        (((0x02000001 : Nat) + 1) &&& 0xFFFFFFFF)
        (((0xBEEF : Nat) >>> 8) &&& 0xFF) :=
  (C4_no_alignment mem0 0x02000001 0xBEEF).2.2 (by decide) (by decide)
    (by decide)

/-! ## C5: BIOS reads and dropped BIOS/ROM writes -/

/-- Pages whose byte writes fall into a no-op branch of
GBAMemory::WriteByte (BIOS, the unmapped pages 1/0xA/0xB, ROM). -/
def pageNoop (p : Nat) : Prop :=
  p = 0 ∨ p = 1 ∨ p = 8 ∨ p = 9 ∨ p = 0xA ∨ p = 0xB

theorem writeByte_noop (m : GBAMemory) (a v : Nat)
    (h : pageNoop (a >>> 24)) :
    writeByte m a v = m := by
  rcases h with h|h|h|h|h|h <;>
  · simp only [writeByte]
    split <;> simp_all

/-- Adding a small offset to an address moves its page forward by at most
one (in u32 arithmetic, away from the very last page). -/
theorem add_small_page (a k d : Nat) (hk : k ≤ 0xFE) (hd : d ≤ 0x1000000)
    (h : a >>> 24 = k) :
    ((a + d) &&& 0xFFFFFFFF) >>> 24 = k ∨
    ((a + d) &&& 0xFFFFFFFF) >>> 24 = k + 1 := by
  rw [Nat.shiftRight_eq_div_pow] at h
  rw [land32, Nat.shiftRight_eq_div_pow]
  omega

theorem writeHWord_noop (m : GBAMemory) (a v : Nat)
    (h1 : pageNoop (a >>> 24))
    (h2 : pageNoop (((a + 1) &&& 0xFFFFFFFF) >>> 24)) :
    writeHWord m a v = m := by
  have hn : (a >>> 24) &&& 0xF ≠ 5 ∧ (a >>> 24) &&& 0xF ≠ 6 ∧
      (a >>> 24) &&& 0xF ≠ 7 := by
    rcases h1 with h|h|h|h|h|h <;> rw [h] <;> exact ⟨by decide, by decide,
      by decide⟩
  simp only [writeHWord]
  split
  · rename_i heq
    exact absurd heq hn.1
  · rename_i heq
    exact absurd heq hn.2.1
  · rename_i heq
    exact absurd heq hn.2.2
  · rw [writeByte_noop m a _ h1]
    exact writeByte_noop m _ _ h2

theorem writeWord_noop (m : GBAMemory) (a v : Nat)
    (h : a >>> 24 = 0 ∨ a >>> 24 = 8 ∨ a >>> 24 = 9) :
    writeWord m a v = m := by
  have hps : ∀ d : Nat, d ≤ 0x1000000 →
      pageNoop (((a + d) &&& 0xFFFFFFFF) >>> 24) := by
    intro d hd
    rcases h with h|h|h <;>
      · rcases add_small_page a _ d (by norm_num) hd h with h2|h2 <;>
          simp [pageNoop, h2]
  have hp0 : pageNoop (a >>> 24) := by
    rcases h with h|h|h <;> simp [pageNoop, h]
  have hw1 : writeHWord m a (v &&& 0xFFFFFFFF &&& 0xFFFF) = m :=
    writeHWord_noop m a _ hp0 (hps 1 (by norm_num))
  have e23 : ((((a + 2) &&& 0xFFFFFFFF) + 1) &&& 0xFFFFFFFF) =
      (a + 3) &&& 0xFFFFFFFF := by
    rw [land32, land32, land32]
    omega
  have hw2 : writeHWord m ((a + 2) &&& 0xFFFFFFFF)
      (((v &&& 0xFFFFFFFF) >>> 16) &&& 0xFFFF) = m := by
    refine writeHWord_noop m _ _ (hps 2 (by norm_num)) ?_
    rw [e23]
    exact hps 3 (by norm_num)
  have hpage : a >>> 24 ≠ 4 := by
    rcases h with h|h|h <;> simp [h]
  simp only [writeWord]
  rw [hw1, hw2]
  repeat' split
  all_goals first
    | rfl
    | (rename_i ha; rw [ha] at hpage; exact absurd (by decide) hpage)

/-- Modelled from the spec: a PC-gated BIOS read — "BIOS (read-only,
readable only when PC∈BIOS)" with domain-invalid accesses returning 0
(spec sections 3 and 7).  No such gate exists anywhere in the sources;
this definition exists only to exhibit the divergence. -/
def readByteBiosSpec (pc : Nat) (m : GBAMemory) (offset : Nat) : Nat :=
  let internal := offset &&& 0xFFFFFF
  if 0x4000 ≤ internal then 0
  else if pc < 0x4000 then m.bios internal
  else 0

/-- C5 counterexample: reading BIOS address 0 from the freshly constructed
memory returns the first HLE-BIOS byte (6) regardless of any program
counter — the read path has no PC input at all — whereas the claimed
PC-gating (readByteBiosSpec, modelled from the spec) returns 0 for a PC
outside the BIOS, e.g. the ROM entry point 0x08000000. -/
theorem C5_counterexample :
    readByte mem0 0 = 6 ∧
    readByteBiosSpec 0x08000000 mem0 0 = 0 ∧
    (6 : Nat) ≠ 0 :=
  ⟨rfl, rfl, by decide⟩

/-- C5 (amended): a region-0 read returns 0 when the low 24 offset bits
are at or beyond 0x4000 and the BIOS byte otherwise, unconditionally — the
result depends only on the BIOS contents, never on the program counter (no
PC gate exists in this memory system); and every 8-, 16- or 32-bit write
to BIOS (region 0) or ROM (regions 8/9) is dropped, leaving the state
unchanged. -/
theorem C5_bios_reads_rom_writes (m : GBAMemory) (a v : Nat) :
    (a >>> 24 = 0 →
      readByte m a =
        if 0x4000 ≤ a &&& 0xFFFFFF then 0 else m.bios (a &&& 0xFFFFFF)) ∧
    (a >>> 24 = 0 → ∀ m2 : GBAMemory, m2.bios = m.bios →
      readByte m2 a = readByte m a) ∧
    ((a >>> 24 = 0 ∨ a >>> 24 = 8 ∨ a >>> 24 = 9) →
      writeByte m a v = m ∧ writeHWord m a v = m ∧ writeWord m a v = m) := by
  refine ⟨?_, ?_, ?_⟩
  · intro h
    unfold readByte
    rw [h]
  · intro h m2 hb
    unfold readByte
    rw [h]
    dsimp only
    rw [hb]
  · intro h
    refine ⟨writeByte_noop m a v ?_, writeHWord_noop m a v ?_ ?_,
      writeWord_noop m a v h⟩
    · rcases h with h|h|h <;> simp [pageNoop, h]
    · rcases h with h|h|h <;> simp [pageNoop, h]
    · rcases h with h|h|h <;>
        · rcases add_small_page a _ 1 (by norm_num) (by norm_num) h with
            h2|h2 <;> simp [pageNoop, h2]

/-- Witness for C5: a concrete in-range BIOS read and a concrete dropped
ROM write. -/
theorem C5_bios_reads_rom_writes_witness :
    readByte mem0 0x100 =
      (if 0x4000 ≤ (0x100 : Nat) &&& 0xFFFFFF then 0
       else mem0.bios ((0x100 : Nat) &&& 0xFFFFFF)) ∧
    writeByte mem0 0x08000000 0xFF = mem0 :=
  ⟨(C5_bios_reads_rom_writes mem0 0x100 0xFF).1 (by decide),
   ((C5_bios_reads_rom_writes mem0 0x08000000 0xFF).2.2 (by decide)).1⟩

/-- C9 counterexample: running the timers from c9mem raises IF bit
0x08 = 8 << 0 for timer 0, not 8 << (3+0) = 0x40 as the claimed formula
says; and timer 2 (count-up) advances from 5 to 6 on a step on which its
predecessor timer 1 is disabled and does not overflow, refuting "timer i+1
with count-up set advances on that step exactly when timer i overflowed on
it" — the loop hands timer 2 the stale overflow flag of timer 0. -/
theorem C9_counterexample :
    (runTimer c9mem).interrupt.if_ = 0x08 ∧
    (8 : Nat) <<< (3 + 0) = 0x40 ∧
    (0x08 : Nat) ≠ 0x40 ∧
    (c9mem.timer 1).enable = false ∧
    (runTimer c9mem).timer 1 = c9mem.timer 1 ∧
    ((runTimer c9mem).timer 2).count = 6 ∧
    (c9mem.timer 2).count = 5 := by
  refine ⟨by decide, by decide, by decide, by decide, by decide,
    by decide, by decide⟩

/-! ## C6: IF is write-one-to-clear -/

/-- Clearing a 16-bit register through the mask 0xFFFF XOR w keeps exactly
the bits not set in w. -/
theorem mask_clear_testBit (old w i : Nat) (hold : old < 0x10000)
    (hw : w < 0x10000) :
    (old &&& (0xFFFF ^^^ w)).testBit i =
      (old.testBit i && !(w.testBit i)) := by
  by_cases hi : i < 16
  · have h1 : (0xFFFF : Nat).testBit i = true := by
      have h2 := Nat.testBit_two_pow_sub_one 16 i
      norm_num at h2
      simp [h2, hi]
    simp [h1]
  · have hle : (0x10000 : Nat) ≤ 2 ^ i := by
      calc (0x10000 : Nat) = 2 ^ 16 := by norm_num
      _ ≤ 2 ^ i := Nat.pow_le_pow_right (by norm_num) (by omega)
    have h0 : old.testBit i = false :=
      Nat.testBit_lt_two_pow (lt_of_lt_of_le hold hle)
    simp [h0]

/-- C6: a byte written to either half of the IF register (0x04000202 /
0x04000203) clears exactly the IF bits set in the written byte (at its
byte lane) and leaves every other IF bit unchanged; the write touches
neither IE nor IME. -/
theorem C6_if_write_one_to_clear (m : GBAMemory) (v : Nat)
    (hif : m.interrupt.if_ < 0x10000) :
    ((writeByte m 0x04000202 v).interrupt.if_ =
        m.interrupt.if_ &&& (0xFFFF ^^^ (v &&& 0xFF))) ∧
    (∀ i, ((writeByte m 0x04000202 v).interrupt.if_).testBit i =
        (m.interrupt.if_.testBit i && !((v &&& 0xFF).testBit i))) ∧
    (writeByte m 0x04000202 v).interrupt.ie = m.interrupt.ie ∧
    (writeByte m 0x04000202 v).interrupt.ime = m.interrupt.ime ∧
    ((writeByte m 0x04000203 v).interrupt.if_ =
        m.interrupt.if_ &&& (0xFFFF ^^^ ((v &&& 0xFF) <<< 8))) ∧
    (∀ i, ((writeByte m 0x04000203 v).interrupt.if_).testBit i =
        (m.interrupt.if_.testBit i && !(((v &&& 0xFF) <<< 8).testBit i))) ∧
    (writeByte m 0x04000203 v).interrupt.ie = m.interrupt.ie ∧
    (writeByte m 0x04000203 v).interrupt.ime = m.interrupt.ime := by
  have e1 : (writeByte m 0x04000202 v).interrupt.if_ =
      m.interrupt.if_ &&& (0xFFFF ^^^ (v &&& 0xFF)) := rfl
  have e2 : (writeByte m 0x04000203 v).interrupt.if_ =
      m.interrupt.if_ &&& (0xFFFF ^^^ ((v &&& 0xFF) <<< 8)) := rfl
  have hb1 : v &&& 0xFF < 0x10000 :=
    lt_of_le_of_lt Nat.and_le_right (by norm_num)
  have hb2 : (v &&& 0xFF) <<< 8 < 0x10000 := by
    rw [Nat.shiftLeft_eq]
    have := Nat.and_le_right (n := v) (m := 0xFF)
    omega
  refine ⟨e1, fun i => ?_, rfl, rfl, e2, fun i => ?_, rfl, rfl⟩
  · rw [e1]
    exact mask_clear_testBit _ _ i hif hb1
  · rw [e2]
    exact mask_clear_testBit _ _ i hif hb2

/-- Interrupt state for the C6 witness. -/
def c6mem : GBAMemory :=
  { mem0 with interrupt := { ie := 0x1234, if_ := 0xF, ime := 1 } }

/-- Witness for C6: writing 0x05 to IF with IF = 0xF clears bits 0 and 2
and leaves IE alone. -/
theorem C6_if_write_one_to_clear_witness :
    ((writeByte c6mem 0x04000202 0x05).interrupt.if_).testBit 0 =
      (c6mem.interrupt.if_.testBit 0 &&
        !(((0x05 : Nat) &&& 0xFF).testBit 0)) ∧
    (writeByte c6mem 0x04000202 0x05).interrupt.ie = c6mem.interrupt.ie :=
  ⟨(C6_if_write_one_to_clear c6mem 0x05 (by decide)).2.1 0,
   (C6_if_write_one_to_clear c6mem 0x05 (by decide)).2.2.1⟩

/-! ## C8: DMA enable latching -/

/-- C8 (amended): a write to the high byte of DMAnCNT_H with the enable
bit set latches the internal shadows — source_int from source under the
per-channel source mask, dest_int from dest under the dest mask, count_int
from count under the count mask with a masked count of 0 read as mask+1
(0x3FFF for channels 0-2, 0xFFFF for channel 3) — on EVERY such write, not
only on a 0-to-1 enable edge: the written enable bit overwrites the old
one before the latch condition is tested, so re-writing enable=1 on an
already-enabled channel re-latches (see the counterexample). -/
theorem C8_dma_latch (m : GBAMemory) (n v : Nat) (hn : n < 4)
    (he : v &&& 128 ≠ 0) :
    ((writeByte m (0x040000BB + 12 * n) v).dma n).source_int =
        (m.dma n).source &&& dma_source_mask.getD n 0 ∧
    ((writeByte m (0x040000BB + 12 * n) v).dma n).dest_int =
        (m.dma n).dest &&& dma_dest_mask.getD n 0 ∧
    ((writeByte m (0x040000BB + 12 * n) v).dma n).count_int =
        (if (m.dma n).count &&& dma_count_mask.getD n 0 = 0
         then dma_count_mask.getD n 0 + 1
         else (m.dma n).count &&& dma_count_mask.getD n 0) ∧
    ((writeByte m (0x040000BB + 12 * n) v).dma n).enable = true := by
  have hv : (v &&& 0xFF) &&& 128 = v &&& 128 := by
    rw [Nat.and_assoc]
    exact congrArg (v &&& .) (by decide)
  have hen : ((v &&& 0xFF) &&& 128 != 0) = true := by
    rw [hv]
    simpa using he
  interval_cases n
  · have hred : writeByte m (0x040000BB + 12 * 0) v =
        dmaCntHiHiByte m 0 (v &&& 0xFF) := rfl
    rw [hred]
    refine ⟨?_, ?_, ?_, ?_⟩ <;> simp [dmaCntHiHiByte, updAt, hen]
  · have hred : writeByte m (0x040000BB + 12 * 1) v =
        dmaCntHiHiByte m 1 (v &&& 0xFF) := rfl
    rw [hred]
    refine ⟨?_, ?_, ?_, ?_⟩ <;> simp [dmaCntHiHiByte, updAt, hen]
  · have hred : writeByte m (0x040000BB + 12 * 2) v =
        dmaCntHiHiByte m 2 (v &&& 0xFF) := rfl
    rw [hred]
    refine ⟨?_, ?_, ?_, ?_⟩ <;> simp [dmaCntHiHiByte, updAt, hen]
  · have hred : writeByte m (0x040000BB + 12 * 3) v =
        dmaCntHiHiByte m 3 (v &&& 0xFF) := rfl
    rw [hred]
    refine ⟨?_, ?_, ?_, ?_⟩ <;> simp [dmaCntHiHiByte, updAt, hen]

/-- Witness for C8: enabling DMA channel 3 latches and sets enable. -/
theorem C8_dma_latch_witness :
    ((writeByte mem0 (0x040000BB + 12 * 3) 0x80).dma 3).enable = true :=
  (C8_dma_latch mem0 3 0x80 (by norm_num) (by decide)).2.2.2

/-- DMA channel 0 of the C8 counterexample: already enabled, with stale
internal shadows. -/
def c8chan : DMAChan :=
  { dmaChan0 with enable := true, source := 0x12345678,
                  source_int := 0xDEAD }

/-- Memory state for the C8 counterexample. -/
def c8mem : GBAMemory :=
  { mem0 with dma := updAt mem0.dma 0 c8chan }

/-- C8 counterexample: DMA channel 0 is already enabled (so a write of
0x80 to the high byte of DMA0CNT_H produces no 0-to-1 enable edge), yet
the write re-latches source_int from source & 0x7FFFFFF, discarding the
previous shadow 0xDEAD — the latch is not restricted to enable edges. -/
theorem C8_counterexample :
    (c8mem.dma 0).enable = true ∧
    ((writeByte c8mem 0x040000BB 0x80).dma 0).source_int = 0x2345678 ∧
    (0x2345678 : Nat) ≠ 0xDEAD ∧
    (c8mem.dma 0).source_int = 0xDEAD :=
  ⟨by decide, by decide, by decide, by decide⟩

/-! ## C10: the only reload-to-count path -/

/-- A TMnCNT_L byte write only touches the reload register, so every timer
count is preserved. -/
theorem timer_reload_count_aux (m : GBAMemory) (c v : Nat) (lo : Bool) (n : Nat) :
    ((timerReloadByte m c v lo).timer n).count = (m.timer n).count := by
  simp only [timerReloadByte, updAt]
  split
  · rename_i hn
    subst hn
    rfl
  · rfl

/-- The TMnCNT_H control update rewrites clock/countup/interrupt/enable
only, so every timer count is preserved. -/
theorem timer_cnth_count_aux (m : GBAMemory) (c w n : Nat) :
    ((({ m with timer := updAt m.timer c ({ m.timer c with clock := w &&& 3, countup := w &&& 4 != 0, interrupt := w &&& 64 != 0, enable := w &&& 128 != 0 }) }) : GBAMemory).timer n).count = (m.timer n).count := by
  simp only [updAt]
  split
  · rename_i hn
    subst hn
    rfl
  · rfl

/-- No branch of the IO byte-write dispatch touches any timer count: the
TMnCNT_L cases go through timerReloadByte (reload only) and the TMnCNT_H
cases rewrite clock/countup/interrupt/enable only. -/
theorem ioWriteByte_timer_count (m : GBAMemory) (io v n : Nat) :
    ((ioWriteByte m io v).timer n).count = (m.timer n).count := by
  by_cases h1 : io = 0x000
  · subst h1
    rfl
  by_cases h2 : io = 0x001
  · subst h2
    rfl
  by_cases h3 : io = 0x004
  · subst h3
    rfl
  by_cases h4 : io = 0x005
  · subst h4
    rfl
  by_cases h5 : 0x008 ≤ io ∧ io ≤ 0x00F ∧ io % 2 = 0
  · have hio : io = 8 ∨ io = 10 ∨ io = 12 ∨ io = 14 := by omega
    rcases hio with h | h | h | h <;> (subst h; rfl)
  by_cases h6 : 0x008 ≤ io ∧ io ≤ 0x00F ∧ io % 2 = 1
  · have hio : io = 9 ∨ io = 11 ∨ io = 13 ∨ io = 15 := by omega
    rcases hio with h | h | h | h <;> (subst h; rfl)
  by_cases h7 : io = 0x10 ∨ io = 0x14 ∨ io = 0x18 ∨ io = 0x1C
  · rcases h7 with h | h | h | h <;> (subst h; rfl)
  by_cases h8 : io = 0x11 ∨ io = 0x15 ∨ io = 0x19 ∨ io = 0x1D
  · rcases h8 with h | h | h | h <;> (subst h; rfl)
  by_cases h9 : io = 0x12 ∨ io = 0x16 ∨ io = 0x1A ∨ io = 0x1E
  · rcases h9 with h | h | h | h <;> (subst h; rfl)
  by_cases h10 : io = 0x13 ∨ io = 0x17 ∨ io = 0x1B ∨ io = 0x1F
  · rcases h10 with h | h | h | h <;> (subst h; rfl)
  by_cases h11 : 0x28 ≤ io ∧ io ≤ 0x2B
  · have hio : io = 40 ∨ io = 41 ∨ io = 42 ∨ io = 43 := by omega
    rcases hio with h | h | h | h <;> (subst h; rfl)
  by_cases h12 : 0x38 ≤ io ∧ io ≤ 0x3B
  · have hio : io = 56 ∨ io = 57 ∨ io = 58 ∨ io = 59 := by omega
    rcases hio with h | h | h | h <;> (subst h; rfl)
  by_cases h13 : 0x2C ≤ io ∧ io ≤ 0x2F
  · have hio : io = 44 ∨ io = 45 ∨ io = 46 ∨ io = 47 := by omega
    rcases hio with h | h | h | h <;> (subst h; rfl)
  by_cases h14 : 0x3C ≤ io ∧ io ≤ 0x3F
  · have hio : io = 60 ∨ io = 61 ∨ io = 62 ∨ io = 63 := by omega
    rcases hio with h | h | h | h <;> (subst h; rfl)
  by_cases h15 : io = 0x20 ∨ io = 0x21
  · rcases h15 with h | h <;> (subst h; rfl)
  by_cases h16 : io = 0x30 ∨ io = 0x31
  · rcases h16 with h | h <;> (subst h; rfl)
  by_cases h17 : io = 0x22 ∨ io = 0x23
  · rcases h17 with h | h <;> (subst h; rfl)
  by_cases h18 : io = 0x32 ∨ io = 0x33
  · rcases h18 with h | h <;> (subst h; rfl)
  by_cases h19 : io = 0x24 ∨ io = 0x25
  · rcases h19 with h | h <;> (subst h; rfl)
  by_cases h20 : io = 0x34 ∨ io = 0x35
  · rcases h20 with h | h <;> (subst h; rfl)
  by_cases h21 : io = 0x26 ∨ io = 0x27
  · rcases h21 with h | h <;> (subst h; rfl)
  by_cases h22 : io = 0x36 ∨ io = 0x37
  · rcases h22 with h | h <;> (subst h; rfl)
  by_cases h23 : io = 0x40
  · subst h23
    rfl
  by_cases h24 : io = 0x41
  · subst h24
    rfl
  by_cases h25 : io = 0x42
  · subst h25
    rfl
  by_cases h26 : io = 0x43
  · subst h26
    rfl
  by_cases h27 : io = 0x44
  · subst h27
    rfl
  by_cases h28 : io = 0x45
  · subst h28
    rfl
  by_cases h29 : io = 0x46
  · subst h29
    rfl
  by_cases h30 : io = 0x47
  · subst h30
    rfl
  by_cases h31 : io = 0x48
  · subst h31
    rfl
  by_cases h32 : io = 0x49
  · subst h32
    rfl
  by_cases h33 : io = 0x4A
  · subst h33
    rfl
  by_cases h34 : io = 0x4B
  · subst h34
    rfl
  by_cases h35 : 0xB0 ≤ io ∧ io ≤ 0xB3
  · have hio : io = 176 ∨ io = 177 ∨ io = 178 ∨ io = 179 := by omega
    rcases hio with h | h | h | h <;> (subst h; rfl)
  by_cases h36 : 0xBC ≤ io ∧ io ≤ 0xBF
  · have hio : io = 188 ∨ io = 189 ∨ io = 190 ∨ io = 191 := by omega
    rcases hio with h | h | h | h <;> (subst h; rfl)
  by_cases h37 : 0xC8 ≤ io ∧ io ≤ 0xCB
  · have hio : io = 200 ∨ io = 201 ∨ io = 202 ∨ io = 203 := by omega
    rcases hio with h | h | h | h <;> (subst h; rfl)
  by_cases h38 : 0xD4 ≤ io ∧ io ≤ 0xD7
  · have hio : io = 212 ∨ io = 213 ∨ io = 214 ∨ io = 215 := by omega
    rcases hio with h | h | h | h <;> (subst h; rfl)
  by_cases h39 : 0xB4 ≤ io ∧ io ≤ 0xB7
  · have hio : io = 180 ∨ io = 181 ∨ io = 182 ∨ io = 183 := by omega
    rcases hio with h | h | h | h <;> (subst h; rfl)
  by_cases h40 : 0xC0 ≤ io ∧ io ≤ 0xC3
  · have hio : io = 192 ∨ io = 193 ∨ io = 194 ∨ io = 195 := by omega
    rcases hio with h | h | h | h <;> (subst h; rfl)
  by_cases h41 : 0xCC ≤ io ∧ io ≤ 0xCF
  · have hio : io = 204 ∨ io = 205 ∨ io = 206 ∨ io = 207 := by omega
    rcases hio with h | h | h | h <;> (subst h; rfl)
  by_cases h42 : 0xD8 ≤ io ∧ io ≤ 0xDB
  · have hio : io = 216 ∨ io = 217 ∨ io = 218 ∨ io = 219 := by omega
    rcases hio with h | h | h | h <;> (subst h; rfl)
  by_cases h43 : io = 0xB8
  · subst h43
    rfl
  by_cases h44 : io = 0xB9
  · subst h44
    rfl
  by_cases h45 : io = 0xC4
  · subst h45
    rfl
  by_cases h46 : io = 0xC5
  · subst h46
    rfl
  by_cases h47 : io = 0xD0
  · subst h47
    rfl
  by_cases h48 : io = 0xD1
  · subst h48
    rfl
  by_cases h49 : io = 0xDC
  · subst h49
    rfl
  by_cases h50 : io = 0xDD
  · subst h50
    rfl
  by_cases h51 : io = 0xBA
  · subst h51
    rfl
  by_cases h52 : io = 0xBB
  · subst h52
    rfl
  by_cases h53 : io = 0xC6
  · subst h53
    rfl
  by_cases h54 : io = 0xC7
  · subst h54
    rfl
  by_cases h55 : io = 0xD2
  · subst h55
    rfl
  by_cases h56 : io = 0xD3
  · subst h56
    rfl
  by_cases h57 : io = 0xDE
  · subst h57
    rfl
  by_cases h58 : io = 0xDF
  · subst h58
    rfl
  by_cases h59 : io = 0x100
  · subst h59
    exact timer_reload_count_aux m 0 v true n
  by_cases h60 : io = 0x101
  · subst h60
    exact timer_reload_count_aux m 0 v false n
  by_cases h61 : io = 0x104
  · subst h61
    exact timer_reload_count_aux m 1 v true n
  by_cases h62 : io = 0x105
  · subst h62
    exact timer_reload_count_aux m 1 v false n
  by_cases h63 : io = 0x108
  · subst h63
    exact timer_reload_count_aux m 2 v true n
  by_cases h64 : io = 0x109
  · subst h64
    exact timer_reload_count_aux m 2 v false n
  by_cases h65 : io = 0x10C
  · subst h65
    exact timer_reload_count_aux m 3 v true n
  by_cases h66 : io = 0x10D
  · subst h66
    exact timer_reload_count_aux m 3 v false n
  by_cases h67 : io = 0x102 ∨ io = 0x106 ∨ io = 0x10A ∨ io = 0x10E
  · rcases h67 with h | h | h | h <;> (subst h; exact timer_cnth_count_aux m _ _ n)
  by_cases h68 : io = 0x200
  · subst h68
    rfl
  by_cases h69 : io = 0x201
  · subst h69
    rfl
  by_cases h70 : io = 0x202
  · subst h70
    rfl
  by_cases h71 : io = 0x203
  · subst h71
    rfl
  by_cases h72 : io = 0x204
  · subst h72
    rfl
  by_cases h73 : io = 0x205
  · subst h73
    rfl
  by_cases h74 : io = 0x208
  · subst h74
    rfl
  by_cases h75 : io = 0x209
  · subst h75
    rfl
  by_cases h76 : io = 0x301
  · subst h76
    rfl
  simp only [ioWriteByte, if_neg h1, if_neg h2, if_neg h3, if_neg h4, if_neg h5, if_neg h6, if_neg h7, if_neg h8, if_neg h9, if_neg h10, if_neg h11, if_neg h12, if_neg h13, if_neg h14, if_neg h15, if_neg h16, if_neg h17, if_neg h18, if_neg h19, if_neg h20, if_neg h21, if_neg h22, if_neg h23, if_neg h24, if_neg h25, if_neg h26, if_neg h27, if_neg h28, if_neg h29, if_neg h30, if_neg h31, if_neg h32, if_neg h33, if_neg h34, if_neg h35, if_neg h36, if_neg h37, if_neg h38, if_neg h39, if_neg h40, if_neg h41, if_neg h42, if_neg h43, if_neg h44, if_neg h45, if_neg h46, if_neg h47, if_neg h48, if_neg h49, if_neg h50, if_neg h51, if_neg h52, if_neg h53, if_neg h54, if_neg h55, if_neg h56, if_neg h57, if_neg h58, if_neg h59, if_neg h60, if_neg h61, if_neg h62, if_neg h63, if_neg h64, if_neg h65, if_neg h66, if_neg h67, if_neg h68, if_neg h69, if_neg h70, if_neg h71, if_neg h72, if_neg h73, if_neg h74, if_neg h75, if_neg h76]

/-- No byte write, at any address, changes any timer count. -/
theorem writeByte_timer_count (m : GBAMemory) (a v n : Nat) :
    ((writeByte m a v).timer n).count = (m.timer n).count := by
  simp only [writeByte]
  split
  any_goals rfl
  split
  · rfl
  · exact ioWriteByte_timer_count m _ _ n

/-- No halfword write, at any address, changes any timer count. -/
theorem writeHWord_timer_count (m : GBAMemory) (a v n : Nat) :
    ((writeHWord m a v).timer n).count = (m.timer n).count := by
  simp only [writeHWord]
  split
  any_goals rfl
  rw [writeByte_timer_count, writeByte_timer_count]

/-- C10: (1) byte writes never change a timer count; (2) halfword writes
never change a timer count; (3) a word write at TMxCNT_L (0x04000100+4x)
whose value has bit 23 set ends with that timer count equal to its
(post-write) reload; (4) a word write whose value has bit 23 clear never
changes a timer count; (5) a byte write to TMxCNT_L sets only the low
byte of the reload.  Together: the bit-23 word-write path in writeWord is
the only write path that loads count from reload. -/
theorem C10_timer_count_loads (m : GBAMemory) (a v x : Nat) :
    (∀ n, ((writeByte m a v).timer n).count = (m.timer n).count) ∧
    (∀ n, ((writeHWord m a v).timer n).count = (m.timer n).count) ∧
    (x < 4 → v &&& 0x800000 ≠ 0 →
      ((writeWord m (0x04000100 + 4 * x) v).timer x).count =
        ((writeWord m (0x04000100 + 4 * x) v).timer x).reload) ∧
    (v &&& 0x800000 = 0 →
      ∀ n, ((writeWord m a v).timer n).count = (m.timer n).count) ∧
    (x < 4 → v < 0x100 →
      ((writeByte m (0x04000100 + 4 * x) v).timer x).reload =
        (((m.timer x).reload &&& 0xFF00) ||| v)) := by
  have hv32 : (v &&& 0xFFFFFFFF) &&& 0x800000 = v &&& 0x800000 := by
    rw [Nat.and_assoc]
    exact congrArg (v &&& .) (by decide)
  refine ⟨fun n => writeByte_timer_count m a v n,
          fun n => writeHWord_timer_count m a v n, ?_, ?_, ?_⟩
  · intro hx hbit
    interval_cases x
    · simp only [writeWord]
      split
      · split
        · simp [updAt]
        · rename_i h
          exact absurd (by norm_num) h
      · rename_i h
        rw [hv32] at h
        exact absurd hbit h
    · simp only [writeWord]
      split
      · split
        · rename_i h
          exact absurd h (by norm_num)
        · split
          · simp [updAt]
          · rename_i h
            exact absurd (by norm_num) h
      · rename_i h
        rw [hv32] at h
        exact absurd hbit h
    · simp only [writeWord]
      split
      · split
        · rename_i h
          exact absurd h (by norm_num)
        · split
          · rename_i h
            exact absurd h (by norm_num)
          · split
            · simp [updAt]
            · rename_i h
              exact absurd (by norm_num) h
      · rename_i h
        rw [hv32] at h
        exact absurd hbit h
    · simp only [writeWord]
      split
      · split
        · rename_i h
          exact absurd h (by norm_num)
        · split
          · rename_i h
            exact absurd h (by norm_num)
          · split
            · rename_i h
              exact absurd h (by norm_num)
            · split
              · simp [updAt]
              · rename_i h
                exact absurd (by norm_num) h
      · rename_i h
        rw [hv32] at h
        exact absurd hbit h
  · intro hz n
    simp only [writeWord]
    split
    · rename_i h
      rw [hv32] at h
      exact absurd hz h
    · rw [writeHWord_timer_count, writeHWord_timer_count]
  · intro hx hv
    have hv8 : v &&& 0xFF = v := by
      have h := Nat.and_pow_two_sub_one_eq_mod v 8
      norm_num at h
      rw [h]
      exact Nat.mod_eq_of_lt hv
    interval_cases x
    · have hred : writeByte m (0x04000100 + 4 * 0) v =
          timerReloadByte m 0 (v &&& 0xFF) true := rfl
      rw [hred]
      simp [timerReloadByte, updAt, hv8]
    · have hred : writeByte m (0x04000100 + 4 * 1) v =
          timerReloadByte m 1 (v &&& 0xFF) true := rfl
      rw [hred]
      simp [timerReloadByte, updAt, hv8]
    · have hred : writeByte m (0x04000100 + 4 * 2) v =
          timerReloadByte m 2 (v &&& 0xFF) true := rfl
      rw [hred]
      simp [timerReloadByte, updAt, hv8]
    · have hred : writeByte m (0x04000100 + 4 * 3) v =
          timerReloadByte m 3 (v &&& 0xFF) true := rfl
      rw [hred]
      simp [timerReloadByte, updAt, hv8]

/-- Witness for C10: a word write of 0x00800005 (bit 23 set) at TM0CNT_L
loads timer 0's count from its reload. -/
theorem C10_timer_count_loads_witness :
    ((writeWord mem0 (0x04000100 + 4 * 0) 0x00800005).timer 0).count =
      ((writeWord mem0 (0x04000100 + 4 * 0) 0x00800005).timer 0).reload :=
  (C10_timer_count_loads mem0 0 0x00800005 0).2.2.1 (by norm_num) (by decide)

end NBA
